import Mathlib

/-!
Verification model of tools/clang/unittests/HLSL/ShaderOpTest.cpp.

The definitions below are shallow embeddings of the parsing and binding
logic of the ShaderOpTest library: the byte-literal resource initializer,
the parser enum tables and their case-insensitive lookup, the Resource and
Descriptor attribute parsing with its fixed-value normalization, the root
value binding selection, the compiler routing test, and the string
interning table. Machine floats are represented by their IEEE-754 single
precision bit patterns as natural numbers; C strings are lists of
characters.
-/

/-- Lowercase one character on the ASCII range, as towlower does for the
ASCII subset used by every name in the source. -/
def lowerChar (c : Char) : Char :=
  if 'A' ≤ c ∧ c ≤ 'Z' then Char.ofNat (c.toNat + 32) else c

/-- Lowercase a character list. -/
def lowerStr (cs : List Char) : List Char := cs.map lowerChar

/-- Equality corresponding to a zero result of the case-insensitive
comparison functions used throughout the source. -/
def wcsicmpEq (a b : List Char) : Bool := lowerStr a == lowerStr b

/-- Round num/den to the nearest integer, ties to even: the IEEE-754
default rounding used when the C runtime converts decimal text to float. -/
def roundHalfEven (num den : Nat) : Nat :=
  let q := num / den
  let r := num % den
  if 2 * r < den then q
  else if den < 2 * r then q + 1
  else if q % 2 = 0 then q else q + 1

/-- Decide whether p / q is at least 2 ^ e for an integer exponent e. -/
def pqGePow2 (p q : Nat) (e : Int) : Bool :=
  if 0 ≤ e then decide (q * 2 ^ e.toNat ≤ p) else decide (q ≤ p * 2 ^ (-e).toNat)

/-- Fuel-driven floor base-2 logarithm, written structurally so that it
evaluates inside the kernel; the fuel n is always sufficient. -/
def natLog2Aux : Nat → Nat → Nat
  | 0, _ => 0
  | fuel + 1, n => if 2 ≤ n then natLog2Aux fuel (n / 2) + 1 else 0

/-- Floor base-2 logarithm of a natural number; zero for zero and one. -/
def natLog2 (n : Nat) : Nat := natLog2Aux n n

/-- IEEE-754 single precision bit pattern of sign * m * 10 ^ e10, rounded
to nearest with ties to even, overflowing to infinity and underflowing
through the subnormal range to zero. -/
def f32OfParts (sign : Bool) (m : Nat) (e10 : Int) : Nat :=
  let signBit := if sign then 2 ^ 31 else 0
  if m = 0 then signBit else
  let p := if 0 ≤ e10 then m * 10 ^ e10.toNat else m
  let q := if 0 ≤ e10 then 1 else 10 ^ (-e10).toNat
  let cand : Int := (natLog2 p : Int) - (natLog2 q : Int)
  let E : Int :=
    if pqGePow2 p q (cand + 1) then cand + 1
    else if pqGePow2 p q cand then cand else cand - 1
  let shift : Int := if E < -126 then 149 else 23 - E
  let s :=
    if 0 ≤ shift then roundHalfEven (p * 2 ^ shift.toNat) q
    else roundHalfEven p (q * 2 ^ (-shift).toNat)
  let mag := if E < -126 then s else (E + 126).toNat * 2 ^ 23 + s
  let mag := if 0x7F800000 ≤ mag then 0x7F800000 else mag
  signBit + mag

/-- Bit pattern of positive infinity in single precision. -/
def posInfF32Bits : Nat := 0x7F800000

/-- Bit pattern of negative infinity in single precision. -/
def negInfF32Bits : Nat := 0xFF800000

/-- Bit pattern of the default quiet NaN in single precision. -/
def quietNanF32Bits : Nat := 0x7FC00000

/-- Bit pattern of FLT_MIN / 2 = 2 ^ (-127), the value the source stores
for the denorm token: a positive subnormal equal to half of the smallest
positive normal number. -/
def fltMinHalfF32Bits : Nat := 0x00400000

/-- A single precision bit pattern encodes a NaN when the exponent field
is all ones and the significand field is nonzero. -/
def isNaNF32Bits (b : Nat) : Bool :=
  (b / 2 ^ 23) % 2 ^ 8 = 255 && b % 2 ^ 23 ≠ 0

/-- The four bytes of a 32-bit pattern in little-endian order, as the
source obtains them by viewing the float through a byte pointer on a
little-endian target. -/
def f32LEBytes (b : Nat) : List Nat :=
  [b % 256, b / 2 ^ 8 % 256, b / 2 ^ 16 % 256, b / 2 ^ 24 % 256]

/-- Whitespace recognized by the C runtime before a numeric literal. -/
def isWcstofSpace (c : Char) : Bool :=
  c = ' ' || c = '\t' || c = '\n' || c = '\r' || c = Char.ofNat 11 || c = Char.ofNat 12

/-- Value of a decimal digit list, most significant first. -/
def digitsToNat (ds : List Char) : Nat :=
  ds.foldl (fun a c => a * 10 + (c.toNat - 48)) 0

/-- Case-insensitive test that a character list starts with a pattern. -/
def ciStartsWith (cs pat : List Char) : Bool :=
  wcsicmpEq (cs.take pat.length) pat

/-- Signed exponent part of a decimal literal: consumed only when an e or
E is followed by at least one digit, as the C runtime does. -/
def wcstofExpPart (cs : List Char) : Int :=
  match cs with
  | [] => 0
  | c :: rest =>
    if c = 'e' ∨ c = 'E' then
      let neg := rest.head? = some '-'
      let rest2 := if rest.head? = some '-' ∨ rest.head? = some '+' then rest.tail else rest
      let ds := rest2.takeWhile Char.isDigit
      if ds.length = 0 then 0
      else if neg then -(digitsToNat ds : Int) else (digitsToNat ds : Int)
    else 0

/-- Model of the C runtime wcstof restricted to the forms that matter
here: optional whitespace and sign, then either a case-insensitive inf or
nan form (per C99) or a decimal literal with optional fraction and
exponent. When no conversion is possible the result is positive zero, as
wcstof returns. Hexadecimal float forms are not modelled; no input in this
development uses them. wcstof stops at the first character that cannot
extend the literal, so trailing text is ignored. -/
def wcstofBits (cs : List Char) : Nat :=
  let cs1 := cs.dropWhile isWcstofSpace
  let sign := cs1.head? = some '-'
  let cs2 := if cs1.head? = some '-' ∨ cs1.head? = some '+' then cs1.tail else cs1
  if ciStartsWith cs2 ("inf").data then
    if sign then negInfF32Bits else posInfF32Bits
  else if ciStartsWith cs2 ("nan").data then
    if sign then 2 ^ 31 + quietNanF32Bits else quietNanF32Bits
  else
    let ds := cs2.takeWhile Char.isDigit
    let cs3 := cs2.drop ds.length
    let hasDot := cs3.head? = some '.'
    let fr := if hasDot then cs3.tail.takeWhile Char.isDigit else []
    let cs4 := if hasDot then cs3.tail.drop fr.length else cs3
    if ds.length = 0 ∧ fr.length = 0 then 0
    else f32OfParts sign (digitsToNat (ds ++ fr)) (wcstofExpPart cs4 - fr.length)

/-- Separator characters of the byte-literal initializer, from
SkipByteInitSeparators and FindByteInitSeparators in the source: space,
tab, carriage return, newline, the two curly brackets, and comma. -/
def isByteInitSep (c : Char) : Bool :=
  c = ' ' || c = '\t' || c = '\r' || c = '\n' ||
  c = Char.ofNat 123 || c = Char.ofNat 125 || c = ','

/-- SkipByteInitSeparators from the source: advance past separators. -/
def SkipByteInitSeparators (cs : List Char) : List Char :=
  cs.dropWhile isByteInitSep

/-- Value stored for one token of the byte-literal initializer. The
source compares the text from the token start to the end of the whole
string (the token is not terminated at the next separator), so the
sentinel branches fire only when the remainder is exactly the sentinel;
otherwise wcstof converts the remainder, stopping at the separator. The
branch order matches the source: nan, -inf, inf or +inf, -denorm, denorm.
Note the source stores negative infinity for inf and +inf and positive
infinity for -inf, and FLT_MIN / 2 for denorm. -/
def byteInitTokenBits (rest : List Char) : Nat :=
  if wcsicmpEq rest ("nan").data then quietNanF32Bits
  else if wcsicmpEq rest ("-inf").data then posInfF32Bits
  else if wcsicmpEq rest ("inf").data ∨ wcsicmpEq rest ("+inf").data then negInfF32Bits
  else if wcsicmpEq rest ("-denorm").data then 2 ^ 31 + fltMinHalfF32Bits
  else if wcsicmpEq rest ("denorm").data then fltMinHalfF32Bits
  else wcstofBits rest

/-- One pass of the byte-literal loop in ParseResource, with explicit fuel
for structural termination: skip separators; if text remains, the token
runs to the next separator, four little-endian bytes of its value are
appended, and the loop resumes after the token. Fuel bounds the number of
iterations; each iteration consumes at least one character, so any fuel
above the text length is exact (parseInitLoop_fuel below). -/
def parseInitLoop : Nat → List Char → List Nat
  | 0, _ => []
  | fuel + 1, cs =>
    match SkipByteInitSeparators cs with
    | [] => []
    | c :: rest =>
      f32LEBytes (byteInitTokenBits (c :: rest)) ++
        parseInitLoop fuel
          ((c :: rest).drop ((c :: rest).takeWhile (fun ch => !isByteInitSep ch)).length)

/-- The byte-literal initializer of a Resource element body, from the
text-node handling at the end of ShaderOpParser::ParseResource. -/
def ParseResourceInitBytes (cs : List Char) : List Nat :=
  parseInitLoop (cs.length + 1) cs

/-- The remainders of the text at each token start, in parse order, with
the same loop structure as parseInitLoop. -/
def tokenRestsLoop : Nat → List Char → List (List Char)
  | 0, _ => []
  | fuel + 1, cs =>
    match SkipByteInitSeparators cs with
    | [] => []
    | c :: rest =>
      (c :: rest) :: tokenRestsLoop fuel
        ((c :: rest).drop ((c :: rest).takeWhile (fun ch => !isByteInitSep ch)).length)

/-- The token-start remainders of a byte-literal initializer body. -/
def byteInitTokenRests (cs : List Char) : List (List Char) :=
  tokenRestsLoop (cs.length + 1) cs

theorem dropWhile_length_le (p : Char → Bool) (l : List Char) :
    (l.dropWhile p).length ≤ l.length := by
  induction l with
  | nil => simp [List.dropWhile]
  | cons c cs ih =>
    by_cases h : p c
    · simp only [List.dropWhile, h]
      exact ih.trans (by simp)
    · simp [List.dropWhile, h]

theorem dropWhile_head_false (p : Char → Bool) (l : List Char) (c : Char)
    (r : List Char) (h : l.dropWhile p = c :: r) : p c = false := by
  induction l with
  | nil => simp [List.dropWhile] at h
  | cons a as ih =>
    by_cases ha : p a
    · exact ih (by simpa [List.dropWhile, ha] using h)
    · simp only [List.dropWhile, ha] at h
      cases h
      simpa using ha

theorem byteInit_step_shorter (cs : List Char) (c : Char) (rest : List Char)
    (hd : SkipByteInitSeparators cs = c :: rest) :
    ((c :: rest).drop
        ((c :: rest).takeWhile (fun ch => !isByteInitSep ch)).length).length
      < cs.length := by
  have hdrop : cs.dropWhile isByteInitSep = c :: rest := hd
  have hc : isByteInitSep c = false :=
    dropWhile_head_false isByteInitSep cs c rest hdrop
  have hlen : (c :: rest).length ≤ cs.length := by
    rw [← hdrop]; exact dropWhile_length_le isByteInitSep cs
  have htok : 1 ≤ ((c :: rest).takeWhile (fun ch => !isByteInitSep ch)).length := by
    simp [List.takeWhile_cons, hc]
  simp only [List.length_drop]
  simp only [List.length_cons] at hlen ⊢
  omega

/-- Any fuel above the text length produces the same result: the loop is
total and the wrapper fuel is sufficient. -/
theorem parseInitLoop_fuel (f1 f2 : Nat) (cs : List Char)
    (h1 : cs.length < f1) (h2 : cs.length < f2) :
    parseInitLoop f1 cs = parseInitLoop f2 cs := by
  induction f1 generalizing f2 cs with
  | zero => omega
  | succ f1 ih =>
    cases f2 with
    | zero => omega
    | succ f2 =>
      simp only [parseInitLoop]
      cases hd : SkipByteInitSeparators cs with
      | nil => rfl
      | cons c rest =>
        have hstep := byteInit_step_shorter cs c rest hd
        show f32LEBytes (byteInitTokenBits (c :: rest)) ++
            parseInitLoop f1 ((c :: rest).drop
              ((c :: rest).takeWhile (fun ch => !isByteInitSep ch)).length) =
          f32LEBytes (byteInitTokenBits (c :: rest)) ++
            parseInitLoop f2 ((c :: rest).drop
              ((c :: rest).takeWhile (fun ch => !isByteInitSep ch)).length)
        rw [ih f2 ((c :: rest).drop
          ((c :: rest).takeWhile (fun ch => !isByteInitSep ch)).length)
          (by omega) (by omega)]

/-- tokenRestsLoop is fuel-stable in the same way. -/
theorem tokenRestsLoop_fuel (f1 f2 : Nat) (cs : List Char)
    (h1 : cs.length < f1) (h2 : cs.length < f2) :
    tokenRestsLoop f1 cs = tokenRestsLoop f2 cs := by
  induction f1 generalizing f2 cs with
  | zero => omega
  | succ f1 ih =>
    cases f2 with
    | zero => omega
    | succ f2 =>
      simp only [tokenRestsLoop]
      cases hd : SkipByteInitSeparators cs with
      | nil => rfl
      | cons c rest =>
        have hstep := byteInit_step_shorter cs c rest hd
        show (c :: rest) ::
            tokenRestsLoop f1 ((c :: rest).drop
              ((c :: rest).takeWhile (fun ch => !isByteInitSep ch)).length) =
          (c :: rest) ::
            tokenRestsLoop f2 ((c :: rest).drop
              ((c :: rest).takeWhile (fun ch => !isByteInitSep ch)).length)
        rw [ih f2 ((c :: rest).drop
          ((c :: rest).takeWhile (fun ch => !isByteInitSep ch)).length)
          (by omega) (by omega)]

/-- The parse loop is the flattening of the per-token byte lists, with
the same fuel: each token start contributes exactly the four bytes of its
converted value, in parse order. -/
theorem parseInitLoop_eq_join (fuel : Nat) (cs : List Char) :
    parseInitLoop fuel cs =
      ((tokenRestsLoop fuel cs).map (fun r => f32LEBytes (byteInitTokenBits r))).flatten := by
  induction fuel generalizing cs with
  | zero => simp [parseInitLoop, tokenRestsLoop]
  | succ fuel ih =>
    simp only [parseInitLoop, tokenRestsLoop]
    cases hd : SkipByteInitSeparators cs with
    | nil => simp
    | cons c rest => simp [ih]

/-- The enumeration-table discriminator, from the source. -/
inductive ParserEnumKind where
  | INPUT_CLASSIFICATION
  | DXGI_FORMAT
  | HEAP_TYPE
  | CPU_PAGE_PROPERTY
  | MEMORY_POOL
  | RESOURCE_DIMENSION
  | TEXTURE_LAYOUT
  | RESOURCE_FLAG
  | HEAP_FLAG
  | RESOURCE_STATE
  | DESCRIPTOR_HEAP_TYPE
  | DESCRIPTOR_HEAP_FLAG
  | UAV_DIMENSION
deriving DecidableEq, Repr

/-- One name-to-value pair of an enumeration table. -/
structure ParserEnumValue where
  Name : String
  Value : Nat
deriving DecidableEq, Repr

/-- One enumeration table: its entries and its kind. The explicit entry
count of the C struct is the list length here. -/
structure ParserEnumTable where
  Values : List ParserEnumValue
  Kind : ParserEnumKind
deriving DecidableEq, Repr

/-- Numeric values of the D3D12 and DXGI enumerations referenced by the
tables and the verified properties. -/
def D3D12_RESOURCE_DIMENSION_BUFFER : Nat := 1

def D3D12_RESOURCE_DIMENSION_TEXTURE1D : Nat := 2

def D3D12_RESOURCE_DIMENSION_TEXTURE2D : Nat := 3

def D3D12_RESOURCE_DIMENSION_TEXTURE3D : Nat := 4

def DXGI_FORMAT_UNKNOWN : Nat := 0

def DXGI_FORMAT_R32_TYPELESS : Nat := 39

def D3D12_TEXTURE_LAYOUT_ROW_MAJOR : Nat := 1

def D3D12_RESOURCE_STATE_COMMON : Nat := 0

def D3D12_RESOURCE_STATE_VERTEX_AND_CONSTANT_BUFFER : Nat := 1

def D3D12_RESOURCE_STATE_UNORDERED_ACCESS : Nat := 8

def D3D12_RESOURCE_STATE_NON_PIXEL_SHADER_RESOURCE : Nat := 64

def D3D12_HEAP_TYPE_DEFAULT : Nat := 1

def D3D12_UAV_DIMENSION_BUFFER : Nat := 1

def D3D12_UAV_DIMENSION_TEXTURE1D : Nat := 2

def D3D12_UAV_DIMENSION_TEXTURE1DARRAY : Nat := 3

def D3D12_UAV_DIMENSION_TEXTURE2D : Nat := 4

def D3D12_UAV_DIMENSION_TEXTURE2DARRAY : Nat := 5

def D3D12_UAV_DIMENSION_TEXTURE3D : Nat := 6

/-- INPUT_CLASSIFICATION_TABLE from the source. -/
def INPUT_CLASSIFICATION_TABLE : List ParserEnumValue := [
  ⟨"INSTANCE", 1⟩,
  ⟨"VERTEX", 0⟩]

/-- First quarter of DXGI_FORMAT_TABLE from the source, with the numeric
values of the DXGI_FORMAT enumeration; the table is split into four parts
only to keep elaboration fast, and reassembled below in source order. -/
def DXGI_FORMAT_TABLE_A : List ParserEnumValue := [
  ⟨"UNKNOWN", 0⟩,
  ⟨"R32G32B32A32_TYPELESS", 1⟩,
  ⟨"R32G32B32A32_FLOAT", 2⟩,
  ⟨"R32G32B32A32_UINT", 3⟩,
  ⟨"R32G32B32A32_SINT", 4⟩,
  ⟨"R32G32B32_TYPELESS", 5⟩,
  ⟨"R32G32B32_FLOAT", 6⟩,
  ⟨"R32G32B32_UINT", 7⟩,
  ⟨"R32G32B32_SINT", 8⟩,
  ⟨"R16G16B16A16_TYPELESS", 9⟩,
  ⟨"R16G16B16A16_FLOAT", 10⟩,
  ⟨"R16G16B16A16_UNORM", 11⟩,
  ⟨"R16G16B16A16_UINT", 12⟩,
  ⟨"R16G16B16A16_SNORM", 13⟩,
  ⟨"R16G16B16A16_SINT", 14⟩,
  ⟨"R32G32_TYPELESS", 15⟩,
  ⟨"R32G32_FLOAT", 16⟩,
  ⟨"R32G32_UINT", 17⟩,
  ⟨"R32G32_SINT", 18⟩,
  ⟨"R32G8X24_TYPELESS", 19⟩,
  ⟨"D32_FLOAT_S8X24_UINT", 20⟩,
  ⟨"R32_FLOAT_X8X24_TYPELESS", 21⟩,
  ⟨"X32_TYPELESS_G8X24_UINT", 22⟩,
  ⟨"R10G10B10A2_TYPELESS", 23⟩,
  ⟨"R10G10B10A2_UNORM", 24⟩,
  ⟨"R10G10B10A2_UINT", 25⟩,
  ⟨"R11G11B10_FLOAT", 26⟩]

/-- Second quarter of DXGI_FORMAT_TABLE from the source. -/
def DXGI_FORMAT_TABLE_B : List ParserEnumValue := [
  ⟨"R8G8B8A8_TYPELESS", 27⟩,
  ⟨"R8G8B8A8_UNORM", 28⟩,
  ⟨"R8G8B8A8_UNORM_SRGB", 29⟩,
  ⟨"R8G8B8A8_UINT", 30⟩,
  ⟨"R8G8B8A8_SNORM", 31⟩,
  ⟨"R8G8B8A8_SINT", 32⟩,
  ⟨"R16G16_TYPELESS", 33⟩,
  ⟨"R16G16_FLOAT", 34⟩,
  ⟨"R16G16_UNORM", 35⟩,
  ⟨"R16G16_UINT", 36⟩,
  ⟨"R16G16_SNORM", 37⟩,
  ⟨"R16G16_SINT", 38⟩,
  ⟨"R32_TYPELESS", 39⟩,
  ⟨"D32_FLOAT", 40⟩,
  ⟨"R32_FLOAT", 41⟩,
  ⟨"R32_UINT", 42⟩,
  ⟨"R32_SINT", 43⟩,
  ⟨"R24G8_TYPELESS", 44⟩,
  ⟨"D24_UNORM_S8_UINT", 45⟩,
  ⟨"R24_UNORM_X8_TYPELESS", 46⟩,
  ⟨"X24_TYPELESS_G8_UINT", 47⟩]

/-- Third quarter of DXGI_FORMAT_TABLE from the source. -/
def DXGI_FORMAT_TABLE_C : List ParserEnumValue := [
  ⟨"R8G8_TYPELESS", 48⟩,
  ⟨"R8G8_UNORM", 49⟩,
  ⟨"R8G8_UINT", 50⟩,
  ⟨"R8G8_SNORM", 51⟩,
  ⟨"R8G8_SINT", 52⟩,
  ⟨"R16_TYPELESS", 53⟩,
  ⟨"R16_FLOAT", 54⟩,
  ⟨"D16_UNORM", 55⟩,
  ⟨"R16_UNORM", 56⟩,
  ⟨"R16_UINT", 57⟩,
  ⟨"R16_SNORM", 58⟩,
  ⟨"R16_SINT", 59⟩,
  ⟨"R8_TYPELESS", 60⟩,
  ⟨"R8_UNORM", 61⟩,
  ⟨"R8_UINT", 62⟩,
  ⟨"R8_SNORM", 63⟩,
  ⟨"R8_SINT", 64⟩,
  ⟨"A8_UNORM", 65⟩,
  ⟨"R1_UNORM", 66⟩,
  ⟨"R9G9B9E5_SHAREDEXP", 67⟩,
  ⟨"R8G8_B8G8_UNORM", 68⟩,
  ⟨"G8R8_G8B8_UNORM", 69⟩,
  ⟨"BC1_TYPELESS", 70⟩,
  ⟨"BC1_UNORM", 71⟩,
  ⟨"BC1_UNORM_SRGB", 72⟩,
  ⟨"BC2_TYPELESS", 73⟩,
  ⟨"BC2_UNORM", 74⟩,
  ⟨"BC2_UNORM_SRGB", 75⟩,
  ⟨"BC3_TYPELESS", 76⟩,
  ⟨"BC3_UNORM", 77⟩,
  ⟨"BC3_UNORM_SRGB", 78⟩,
  ⟨"BC4_TYPELESS", 79⟩,
  ⟨"BC4_UNORM", 80⟩,
  ⟨"BC4_SNORM", 81⟩,
  ⟨"BC5_TYPELESS", 82⟩,
  ⟨"BC5_UNORM", 83⟩,
  ⟨"BC5_SNORM", 84⟩]

/-- Fourth quarter of DXGI_FORMAT_TABLE from the source. -/
def DXGI_FORMAT_TABLE_D : List ParserEnumValue := [
  ⟨"B5G6R5_UNORM", 85⟩,
  ⟨"B5G5R5A1_UNORM", 86⟩,
  ⟨"B8G8R8A8_UNORM", 87⟩,
  ⟨"B8G8R8X8_UNORM", 88⟩,
  ⟨"R10G10B10_XR_BIAS_A2_UNORM", 89⟩,
  ⟨"B8G8R8A8_TYPELESS", 90⟩,
  ⟨"B8G8R8A8_UNORM_SRGB", 91⟩,
  ⟨"B8G8R8X8_TYPELESS", 92⟩,
  ⟨"B8G8R8X8_UNORM_SRGB", 93⟩,
  ⟨"BC6H_TYPELESS", 94⟩,
  ⟨"BC6H_UF16", 95⟩,
  ⟨"BC6H_SF16", 96⟩,
  ⟨"BC7_TYPELESS", 97⟩,
  ⟨"BC7_UNORM", 98⟩,
  ⟨"BC7_UNORM_SRGB", 99⟩,
  ⟨"AYUV", 100⟩,
  ⟨"Y410", 101⟩,
  ⟨"Y416", 102⟩,
  ⟨"NV12", 103⟩,
  ⟨"P010", 104⟩,
  ⟨"P016", 105⟩,
  ⟨"420_OPAQUE", 106⟩,
  ⟨"YUY2", 107⟩,
  ⟨"Y210", 108⟩,
  ⟨"Y216", 109⟩,
  ⟨"NV11", 110⟩,
  ⟨"AI44", 111⟩,
  ⟨"IA44", 112⟩,
  ⟨"P8", 113⟩,
  ⟨"A8P8", 114⟩,
  ⟨"B4G4R4A4_UNORM", 115⟩,
  ⟨"P208", 130⟩,
  ⟨"V208", 131⟩,
  ⟨"V408", 132⟩]

/-- DXGI_FORMAT_TABLE from the source: the four quarters in order. -/
def DXGI_FORMAT_TABLE : List ParserEnumValue :=
  DXGI_FORMAT_TABLE_A ++ DXGI_FORMAT_TABLE_B ++ DXGI_FORMAT_TABLE_C ++ DXGI_FORMAT_TABLE_D

/-- HEAP_TYPE_TABLE from the source. -/
def HEAP_TYPE_TABLE : List ParserEnumValue := [
  ⟨"DEFAULT", 1⟩,
  ⟨"UPLOAD", 2⟩,
  ⟨"READBACK", 3⟩,
  ⟨"CUSTOM", 4⟩]

/-- CPU_PAGE_PROPERTY_TABLE from the source. -/
def CPU_PAGE_PROPERTY_TABLE : List ParserEnumValue := [
  ⟨"UNKNOWN", 0⟩,
  ⟨"NOT_AVAILABLE", 1⟩,
  ⟨"WRITE_COMBINE", 2⟩,
  ⟨"WRITE_BACK", 3⟩]

/-- MEMORY_POOL_TABLE from the source. The L0 entry name carries a
trailing space, exactly as in the source text. -/
def MEMORY_POOL_TABLE : List ParserEnumValue := [
  ⟨"UNKNOWN", 0⟩,
  ⟨"L0 ", 1⟩,
  ⟨"L1", 2⟩]

/-- RESOURCE_DIMENSION_TABLE from the source. -/
def RESOURCE_DIMENSION_TABLE : List ParserEnumValue := [
  ⟨"UNKNOWN", 0⟩,
  ⟨"BUFFER", 1⟩,
  ⟨"TEXTURE1D", 2⟩,
  ⟨"TEXTURE2D", 3⟩,
  ⟨"TEXTURE3D", 4⟩]

/-- TEXTURE_LAYOUT_TABLE from the source. -/
def TEXTURE_LAYOUT_TABLE : List ParserEnumValue := [
  ⟨"UNKNOWN", 0⟩,
  ⟨"ROW_MAJOR", 1⟩,
  ⟨"UNDEFINED_SWIZZLE", 2⟩,
  ⟨"STANDARD_SWIZZLE", 3⟩]

/-- RESOURCE_FLAG_TABLE from the source. -/
def RESOURCE_FLAG_TABLE : List ParserEnumValue := [
  ⟨"NONE", 0⟩,
  ⟨"ALLOW_RENDER_TARGET", 1⟩,
  ⟨"ALLOW_DEPTH_STENCIL", 2⟩,
  ⟨"ALLOW_UNORDERED_ACCESS", 4⟩,
  ⟨"DENY_SHADER_RESOURCE", 8⟩,
  ⟨"ALLOW_CROSS_ADAPTER", 16⟩,
  ⟨"ALLOW_SIMULTANEOUS_ACCESS", 32⟩]

/-- HEAP_FLAG_TABLE from the source. -/
def HEAP_FLAG_TABLE : List ParserEnumValue := [
  ⟨"NONE", 0⟩,
  ⟨"SHARED", 1⟩,
  ⟨"DENY_BUFFERS", 4⟩,
  ⟨"ALLOW_DISPLAY", 8⟩,
  ⟨"SHARED_CROSS_ADAPTER", 32⟩,
  ⟨"DENY_RT_DS_TEXTURES", 64⟩,
  ⟨"DENY_NON_RT_DS_TEXTURES", 128⟩,
  ⟨"ALLOW_ALL_BUFFERS_AND_TEXTURES", 0⟩,
  ⟨"ALLOW_ONLY_BUFFERS", 192⟩,
  ⟨"ALLOW_ONLY_NON_RT_DS_TEXTURES", 68⟩,
  ⟨"ALLOW_ONLY_RT_DS_TEXTURES", 132⟩]

/-- RESOURCE_STATE_TABLE from the source. PRESENT shares the value of
COMMON and PREDICATION shares the value of INDIRECT_ARGUMENT, as in the
D3D12 headers. -/
def RESOURCE_STATE_TABLE : List ParserEnumValue := [
  ⟨"COMMON", 0⟩,
  ⟨"VERTEX_AND_CONSTANT_BUFFER", 1⟩,
  ⟨"INDEX_BUFFER", 2⟩,
  ⟨"RENDER_TARGET", 4⟩,
  ⟨"UNORDERED_ACCESS", 8⟩,
  ⟨"DEPTH_WRITE", 16⟩,
  ⟨"DEPTH_READ", 32⟩,
  ⟨"NON_PIXEL_SHADER_RESOURCE", 64⟩,
  ⟨"PIXEL_SHADER_RESOURCE", 128⟩,
  ⟨"STREAM_OUT", 256⟩,
  ⟨"INDIRECT_ARGUMENT", 512⟩,
  ⟨"COPY_DEST", 1024⟩,
  ⟨"COPY_SOURCE", 2048⟩,
  ⟨"RESOLVE_DEST", 4096⟩,
  ⟨"RESOLVE_SOURCE", 8192⟩,
  ⟨"GENERIC_READ", 2755⟩,
  ⟨"PRESENT", 0⟩,
  ⟨"PREDICATION", 512⟩]

/-- DESCRIPTOR_HEAP_TYPE_TABLE from the source. -/
def DESCRIPTOR_HEAP_TYPE_TABLE : List ParserEnumValue := [
  ⟨"CBV_SRV_UAV", 0⟩,
  ⟨"SAMPLER", 1⟩,
  ⟨"RTV", 2⟩,
  ⟨"DSV", 3⟩]

/-- DESCRIPTOR_HEAP_FLAG_TABLE from the source. -/
def DESCRIPTOR_HEAP_FLAG_TABLE : List ParserEnumValue := [
  ⟨"NONE", 0⟩,
  ⟨"SHADER_VISIBLE", 1⟩]

/-- UAV_DIMENSION_TABLE from the source. -/
def UAV_DIMENSION_TABLE : List ParserEnumValue := [
  ⟨"UNKNOWN", 0⟩,
  ⟨"BUFFER", 1⟩,
  ⟨"TEXTURE1D", 2⟩,
  ⟨"TEXTURE1DARRAY", 3⟩,
  ⟨"TEXTURE2D", 4⟩,
  ⟨"TEXTURE2DARRAY", 5⟩,
  ⟨"TEXTURE3D", 6⟩]

/-- g_ParserEnumTables from the source, in the same order. -/
def g_ParserEnumTables : List ParserEnumTable := [
  ⟨INPUT_CLASSIFICATION_TABLE, .INPUT_CLASSIFICATION⟩,
  ⟨DXGI_FORMAT_TABLE, .DXGI_FORMAT⟩,
  ⟨HEAP_TYPE_TABLE, .HEAP_TYPE⟩,
  ⟨CPU_PAGE_PROPERTY_TABLE, .CPU_PAGE_PROPERTY⟩,
  ⟨MEMORY_POOL_TABLE, .MEMORY_POOL⟩,
  ⟨RESOURCE_DIMENSION_TABLE, .RESOURCE_DIMENSION⟩,
  ⟨TEXTURE_LAYOUT_TABLE, .TEXTURE_LAYOUT⟩,
  ⟨RESOURCE_FLAG_TABLE, .RESOURCE_FLAG⟩,
  ⟨HEAP_FLAG_TABLE, .HEAP_FLAG⟩,
  ⟨RESOURCE_STATE_TABLE, .RESOURCE_STATE⟩,
  ⟨DESCRIPTOR_HEAP_TYPE_TABLE, .DESCRIPTOR_HEAP_TYPE⟩,
  ⟨DESCRIPTOR_HEAP_FLAG_TABLE, .DESCRIPTOR_HEAP_FLAG⟩,
  ⟨UAV_DIMENSION_TABLE, .UAV_DIMENSION⟩]

/-- The inner loop of GetEnumValue: scan the entries of one table with
the case-insensitive comparison, first match wins. -/
def findEnumEntry (name : String) : List ParserEnumValue → Option Nat
  | [] => none
  | e :: rest =>
    if wcsicmpEq name.data e.Name.data then some e.Value else findEnumEntry name rest

/-- The outer loop of GetEnumValue: skip tables of the wrong kind, scan
tables of the requested kind, fall through to failure. -/
def getEnumValueTables (name : String) (K : ParserEnumKind) :
    List ParserEnumTable → Option Nat
  | [] => none
  | T :: rest =>
    if T.Kind = K then
      match findEnumEntry name T.Values with
      | some v => some v
      | none => getEnumValueTables name K rest
    else getEnumValueTables name K rest

/-- GetEnumValue from the source: none models the E_INVALIDARG failure. -/
def GetEnumValue (name : String) (K : ParserEnumKind) : Option Nat :=
  getEnumValueTables name K g_ParserEnumTables

theorem findEnumEntry_ci (a b : String) (h : lowerStr a.data = lowerStr b.data)
    (l : List ParserEnumValue) : findEnumEntry a l = findEnumEntry b l := by
  induction l with
  | nil => rfl
  | cons e rest ih =>
    simp only [findEnumEntry, wcsicmpEq, h, ih]

theorem getEnumValueTables_ci (a b : String) (h : lowerStr a.data = lowerStr b.data)
    (K : ParserEnumKind) (l : List ParserEnumTable) :
    getEnumValueTables a K l = getEnumValueTables b K l := by
  induction l with
  | nil => rfl
  | cons T rest ih =>
    simp only [getEnumValueTables, findEnumEntry_ci a b h, ih]

/-- GetEnumValue depends on the name only through its lowercase image:
every lookup step compares with the case-insensitive comparison. -/
theorem GetEnumValue_ci (a b : String) (h : lowerStr a.data = lowerStr b.data)
    (K : ParserEnumKind) : GetEnumValue a K = GetEnumValue b K :=
  getEnumValueTables_ci a b h K g_ParserEnumTables

set_option maxRecDepth 200000 in
theorem enumTables_roundtrip_exact :
    (g_ParserEnumTables.all (fun T => T.Values.all
      (fun p => GetEnumValue p.Name T.Kind == some p.Value))) = true := by decide

/-- C6: parser enum-name resolution is case-insensitive and forms a round
trip: for every entry of every ParserEnumKind table, looking the name up
in any letter-case variation under the kind of that table succeeds and
returns exactly the numeric value of the entry. -/
theorem C6_enum_lookup_roundtrip :
    ∀ T ∈ g_ParserEnumTables, ∀ p ∈ T.Values, ∀ s : String,
      lowerStr s.data = lowerStr p.Name.data →
      GetEnumValue s T.Kind = some p.Value := by
  intro T hT p hp s hs
  rw [GetEnumValue_ci s p.Name hs]
  have hall := enumTables_roundtrip_exact
  rw [List.all_eq_true] at hall
  have h1 := hall T hT
  rw [List.all_eq_true] at h1
  exact beq_iff_eq.mp (h1 p hp)

/-- Witness for C6 at the letter-case variation named by the spec: the
lowercase spelling of R8G8B8A8_UNORM resolves to its table value 28. -/
theorem C6_enum_lookup_roundtrip_witness :
    GetEnumValue "r8g8b8a8_unorm" ParserEnumKind.DXGI_FORMAT = some 28 :=
  C6_enum_lookup_roundtrip ⟨DXGI_FORMAT_TABLE, .DXGI_FORMAT⟩ (by decide)
    ⟨"R8G8B8A8_UNORM", 28⟩ (by decide) "r8g8b8a8_unorm" (by decide)

deriving instance DecidableEq for Except

/-- Parse failures of the XML deserializer. missingKind and unknownKind
are the two E_INVALIDARG failures of the Kind validation at the end of
ParseDescriptor; enumNotFound is the E_INVALIDARG failure of an enum
attribute with no table match; intOverflow covers the ERANGE check after
the integer conversion and the intsafe narrowing failures. -/
inductive PErr where
  | missingKind
  | unknownKind
  | enumNotFound (attr : String)
  | intOverflow (attr : String)
deriving DecidableEq, Repr

/-- The attribute set of one element: a lookup from attribute name to its
text, modelling MoveToAttributeByName plus GetValue (exact name match). -/
def AttrMap : Type := String → Option String

/-- Build an attribute map from a list of name and value pairs. -/
def attrsOf (l : List (String × String)) : AttrMap :=
  fun n => (l.find? (fun p => p.1 == n)).map Prod.snd

/-- Override one attribute in a map. -/
def setAttr (attrs : AttrMap) (name : String) (v : Option String) : AttrMap :=
  fun n => if n = name then v else attrs n

/-- ReadAttrStr: the attribute text, or none when absent (S_FALSE). The
string interning of the source keeps content unchanged. -/
def ReadAttrStr (attrs : AttrMap) (name : String) : Option String :=
  attrs name

/-- ReadAttrBOOL: true exactly when the attribute is present and equals
true case-insensitively; absent attributes take the default. -/
def ReadAttrBOOL (attrs : AttrMap) (name : String) (dflt : Bool) : Bool :=
  match attrs name with
  | none => dflt
  | some s => wcsicmpEq s.data ("true").data

/-- The signed integer value read by the C runtime conversion of the
attribute text: optional whitespace, optional sign, leading decimal
digits; no digits yield zero. -/
def wtolValue (cs : List Char) : Int :=
  let cs1 := cs.dropWhile isWcstofSpace
  let neg := cs1.head? = some '-'
  let cs2 := if cs1.head? = some '-' ∨ cs1.head? = some '+' then cs1.tail else cs1
  let ds := cs2.takeWhile Char.isDigit
  if neg then -(digitsToNat ds : Int) else (digitsToNat ds : Int)

/-- ReadAttrUINT64: absent takes the default; the text is converted
through the 32-bit long conversion of the source (values outside the long
range set ERANGE and fail with E_INVALIDARG), and the long is widened to
an unsigned 64-bit value, so negative text wraps modulo 2 ^ 64. -/
def ReadAttrUINT64 (attrs : AttrMap) (name : String) (dflt : Nat) : Except PErr Nat :=
  match attrs name with
  | none => .ok dflt
  | some s =>
    let v := wtolValue s.data
    if v < -(2 ^ 31) ∨ (2 ^ 31 - 1) < v then .error (.intOverflow name)
    else .ok (v % (2 ^ 64)).toNat

/-- ReadAttrUINT: ReadAttrUINT64 followed by the UInt64ToUInt narrowing
check of intsafe. -/
def ReadAttrUINT (attrs : AttrMap) (name : String) (dflt : Nat) : Except PErr Nat :=
  match ReadAttrUINT64 attrs name dflt with
  | .error e => .error e
  | .ok v => if v < 2 ^ 32 then .ok v else .error (.intOverflow name)

/-- ReadAttrUINT16: ReadAttrUINT64 followed by the UInt64ToUInt16
narrowing check of intsafe. -/
def ReadAttrUINT16 (attrs : AttrMap) (name : String) (dflt : Nat) : Except PErr Nat :=
  match ReadAttrUINT64 attrs name dflt with
  | .error e => .error e
  | .ok v => if v < 2 ^ 16 then .ok v else .error (.intOverflow name)

/-- ReadAttrEnumT: absent takes the default; a present value must resolve
through GetEnumValue under the table kind, else E_INVALIDARG. The
DXGI_FORMAT_ strip condition of the source compares the attribute name
rather than the configured strip text against the value, so it never
strips a real format name and is omitted here. -/
def ReadAttrEnum (attrs : AttrMap) (name : String) (K : ParserEnumKind)
    (dflt : Nat) : Except PErr Nat :=
  match attrs name with
  | none => .ok dflt
  | some s =>
    match GetEnumValue s K with
    | some v => .ok v
    | none => .error (.enumNotFound name)

/-- ReadAttrEnumT together with the S_FALSE tracking used for the Format
attribute of descriptors: the flag records whether the attribute was
present. -/
def ReadAttrEnumPresent (attrs : AttrMap) (name : String) (K : ParserEnumKind)
    (dflt : Nat) : Except PErr (Nat × Bool) :=
  match attrs name with
  | none => .ok (dflt, false)
  | some s =>
    match GetEnumValue s K with
    | some v => .ok (v, true)
    | none => .error (.enumNotFound name)

/-- D3D12_RESOURCE_DESC as parsed by ParseResource. -/
structure ResourceDescM where
  Dimension : Nat
  Alignment : Nat
  Width : Nat
  Height : Nat
  DepthOrArraySize : Nat
  MipLevels : Nat
  Format : Nat
  SampleCount : Nat
  SampleQuality : Nat
  Layout : Nat
  Flags : Nat
deriving DecidableEq, Repr

/-- D3D12_HEAP_PROPERTIES as parsed by ParseResource; HeapType is the
Type field of the C structure. -/
structure HeapPropertiesM where
  HeapType : Nat
  CPUPageProperty : Nat
  MemoryPoolPreference : Nat
  CreationNodeMask : Nat
  VisibleNodeMask : Nat
deriving DecidableEq, Repr

/-- ShaderOpResource as produced by ParseResource. -/
structure ShaderOpResourceM where
  Name : Option String
  Init : Option String
  ReadBack : Bool
  HeapProperties : HeapPropertiesM
  Desc : ResourceDescM
  HeapFlags : Nat
  InitialResourceState : Nat
  TransitionTo : Nat
  InitBytes : List Nat
deriving DecidableEq, Repr

/-- First fixed-value block at the end of ParseResource: a BUFFER
descriptor overwrites Height, DepthOrArraySize, MipLevels, Format,
SampleDesc and Layout unconditionally. -/
def fixupBufferDesc (d : ResourceDescM) : ResourceDescM :=
  if d.Dimension = D3D12_RESOURCE_DIMENSION_BUFFER then
    { d with Height := 1, DepthOrArraySize := 1, MipLevels := 1,
             Format := DXGI_FORMAT_UNKNOWN, SampleCount := 1, SampleQuality := 0,
             Layout := D3D12_TEXTURE_LAYOUT_ROW_MAJOR }
  else d

/-- Second fixed-value block: TEXTURE1D defaults zero Height,
DepthOrArraySize and SampleCount to one. -/
def fixupTex1DDesc (d : ResourceDescM) : ResourceDescM :=
  if d.Dimension = D3D12_RESOURCE_DIMENSION_TEXTURE1D then
    { d with Height := if d.Height = 0 then 1 else d.Height,
             DepthOrArraySize := if d.DepthOrArraySize = 0 then 1 else d.DepthOrArraySize,
             SampleCount := if d.SampleCount = 0 then 1 else d.SampleCount }
  else d

/-- Third fixed-value block: TEXTURE2D defaults zero DepthOrArraySize and
SampleCount to one. -/
def fixupTex2DDesc (d : ResourceDescM) : ResourceDescM :=
  if d.Dimension = D3D12_RESOURCE_DIMENSION_TEXTURE2D then
    { d with DepthOrArraySize := if d.DepthOrArraySize = 0 then 1 else d.DepthOrArraySize,
             SampleCount := if d.SampleCount = 0 then 1 else d.SampleCount }
  else d

/-- The fixed-value normalization at the end of ParseResource: the three
dimension blocks in source order. -/
def fixupResourceDesc (d : ResourceDescM) : ResourceDescM :=
  fixupTex2DDesc (fixupTex1DDesc (fixupBufferDesc d))

/-- The D3D12_RESOURCE_DESC reads of ParseResource, in source order,
followed by the fixed-value normalization; the first failing read aborts,
as every read is wrapped by CHECK_HR. -/
def parseResourceDesc (attrs : AttrMap) : Except PErr ResourceDescM :=
  match ReadAttrEnum attrs "Dimension" .RESOURCE_DIMENSION D3D12_RESOURCE_DIMENSION_BUFFER with
  | .error e => .error e
  | .ok dim =>
  match ReadAttrUINT64 attrs "Alignment" 0 with
  | .error e => .error e
  | .ok alignment =>
  match ReadAttrUINT64 attrs "Width" 0 with
  | .error e => .error e
  | .ok width =>
  match ReadAttrUINT attrs "Height" 0 with
  | .error e => .error e
  | .ok height =>
  match ReadAttrUINT16 attrs "DepthOrArraySize" 0 with
  | .error e => .error e
  | .ok depth =>
  match ReadAttrUINT16 attrs "MipLevels" 0 with
  | .error e => .error e
  | .ok mips =>
  match ReadAttrEnum attrs "Format" .DXGI_FORMAT DXGI_FORMAT_UNKNOWN with
  | .error e => .error e
  | .ok fmt =>
  match ReadAttrUINT attrs "SampleCount" 0 with
  | .error e => .error e
  | .ok sc =>
  match ReadAttrUINT attrs "SampleQual" 0 with
  | .error e => .error e
  | .ok sq =>
  match ReadAttrEnum attrs "Layout" .TEXTURE_LAYOUT 0 with
  | .error e => .error e
  | .ok layout =>
  match ReadAttrEnum attrs "Flags" .RESOURCE_FLAG 0 with
  | .error e => .error e
  | .ok flags =>
  .ok (fixupResourceDesc ⟨dim, alignment, width, height, depth, mips, fmt, sc, sq, layout, flags⟩)

/-- ShaderOpParser::ParseResource: the attribute reads in source order,
the descriptor reads with their normalization, and the byte-literal body
(none models an empty element). -/
def parseResource (attrs : AttrMap) (body : Option (List Char)) :
    Except PErr ShaderOpResourceM :=
  match ReadAttrEnum attrs "HeapType" .HEAP_TYPE D3D12_HEAP_TYPE_DEFAULT with
  | .error e => .error e
  | .ok ht =>
  match ReadAttrEnum attrs "CPUPageProperty" .CPU_PAGE_PROPERTY 0 with
  | .error e => .error e
  | .ok cpp =>
  match ReadAttrEnum attrs "MemoryPoolPreference" .MEMORY_POOL 0 with
  | .error e => .error e
  | .ok mpp =>
  match ReadAttrUINT attrs "CreationNodeMask" 0 with
  | .error e => .error e
  | .ok cnm =>
  match ReadAttrUINT attrs "VisibleNodeMask" 0 with
  | .error e => .error e
  | .ok vnm =>
  match parseResourceDesc attrs with
  | .error e => .error e
  | .ok desc =>
  match ReadAttrEnum attrs "HeapFlags" .HEAP_FLAG 0 with
  | .error e => .error e
  | .ok hf =>
  match ReadAttrEnum attrs "InitialResourceState" .RESOURCE_STATE 0 with
  | .error e => .error e
  | .ok irs =>
  match ReadAttrEnum attrs "TransitionTo" .RESOURCE_STATE 0 with
  | .error e => .error e
  | .ok tt =>
  .ok { Name := ReadAttrStr attrs "Name", Init := ReadAttrStr attrs "Init",
        ReadBack := ReadAttrBOOL attrs "ReadBack" false,
        HeapProperties := ⟨ht, cpp, mpp, cnm, vnm⟩, Desc := desc,
        HeapFlags := hf, InitialResourceState := irs, TransitionTo := tt,
        InitBytes := match body with | none => [] | some t => ParseResourceInitBytes t }

/-- GetByteSizeForFormat from the source, keyed by the DXGI_FORMAT
numeric value; the source raises E_INVALIDARG and returns zero for any
format outside the listed ones, modelled as zero. -/
def GetByteSizeForFormat (v : Nat) : Nat :=
  match v with
  | 1 | 2 | 3 | 4 => 16
  | 5 | 6 | 7 | 8 => 12
  | 9 | 10 | 11 | 12 | 13 | 14 | 15 | 16 | 17 | 18 | 19 => 8
  | 20 | 21 | 22 | 23 | 24 | 25 | 26 | 27 | 28 | 29 | 30 | 31 | 32 | 33 | 34
  | 35 | 36 | 37 | 38 | 39 | 40 | 41 | 42 | 43 | 44 | 45 | 46 | 47 => 4
  | 48 | 49 | 50 | 51 | 52 | 53 | 54 | 55 | 56 | 57 | 58 | 59 => 2
  | 60 | 61 | 62 | 63 | 64 | 65 | 66 => 1
  | _ => 0

/-- The width resolution of CreateResources for a resource initialized
from bytes: a zero width becomes the byte count for a buffer, or the
element count derived from the format size for a TEXTURE1D; any other
zero-width dimension and any explicit width are left unchanged. -/
def resolveFromBytesWidth (R : ShaderOpResourceM) : Nat :=
  if R.Desc.Width = 0 then
    if R.Desc.Dimension = D3D12_RESOURCE_DIMENSION_BUFFER then R.InitBytes.length
    else if R.Desc.Dimension = D3D12_RESOURCE_DIMENSION_TEXTURE1D then
      R.InitBytes.length / GetByteSizeForFormat R.Desc.Format
    else R.Desc.Width
  else R.Desc.Width

theorem fixup_preserves_dim (d : ResourceDescM) :
    (fixupResourceDesc d).Dimension = d.Dimension := by
  simp only [fixupResourceDesc, fixupBufferDesc, fixupTex1DDesc, fixupTex2DDesc]
  repeat' split
  all_goals rfl

theorem fixup_buffer_fields (d : ResourceDescM)
    (h : d.Dimension = D3D12_RESOURCE_DIMENSION_BUFFER) :
    (fixupResourceDesc d).Height = 1 ∧ (fixupResourceDesc d).DepthOrArraySize = 1 ∧
    (fixupResourceDesc d).MipLevels = 1 ∧ (fixupResourceDesc d).Format = DXGI_FORMAT_UNKNOWN ∧
    (fixupResourceDesc d).SampleCount = 1 ∧ (fixupResourceDesc d).SampleQuality = 0 ∧
    (fixupResourceDesc d).Layout = D3D12_TEXTURE_LAYOUT_ROW_MAJOR := by
  simp [fixupResourceDesc, fixupBufferDesc, fixupTex1DDesc, fixupTex2DDesc, h,
    D3D12_RESOURCE_DIMENSION_BUFFER, D3D12_RESOURCE_DIMENSION_TEXTURE1D,
    D3D12_RESOURCE_DIMENSION_TEXTURE2D, DXGI_FORMAT_UNKNOWN,
    D3D12_TEXTURE_LAYOUT_ROW_MAJOR]

theorem parseResourceDesc_shape (attrs : AttrMap) (d : ResourceDescM)
    (h : parseResourceDesc attrs = .ok d) : ∃ d0, d = fixupResourceDesc d0 := by
  unfold parseResourceDesc at h
  repeat' split at h
  all_goals cases h
  all_goals exact ⟨_, rfl⟩

theorem parseResource_desc_shape (attrs : AttrMap) (body : Option (List Char))
    (r : ShaderOpResourceM) (h : parseResource attrs body = .ok r) :
    ∃ d0, r.Desc = fixupResourceDesc d0 := by
  unfold parseResource at h
  repeat' split at h
  all_goals cases h
  all_goals exact parseResourceDesc_shape attrs _ (by assumption)

theorem flatten_tokenBytes_length (l : List (List Char)) :
    ((l.map (fun r => f32LEBytes (byteInitTokenBits r))).flatten).length = 4 * l.length := by
  induction l with
  | nil => simp
  | cons r rest ih =>
    have h4 : (f32LEBytes (byteInitTokenBits r)).length = 4 := rfl
    simp only [List.map_cons, List.flatten_cons, List.length_append, ih, h4,
      List.length_cons]
    omega

/-- C1 (amended): in byte-literal resource initialization, the parsed
bytes are exactly the per-token four-byte little-endian single precision
values in parse order; a sentinel spelling is recognized only when it
extends to the end of the text, because the source compares the whole
remainder, and then nan stores a NaN, inf and +inf store negative
infinity, -inf stores positive infinity, and denorm stores FLT_MIN / 2 =
2 ^ (-127) (a positive subnormal, but not the smallest one), negated for
-denorm. A token that is not a remainder-exact sentinel is converted by
wcstof from the remainder. -/
theorem C1_byte_init_tokens_amended :
    (∀ cs : List Char,
      ParseResourceInitBytes cs =
        ((byteInitTokenRests cs).map (fun r => f32LEBytes (byteInitTokenBits r))).flatten
      ∧ (ParseResourceInitBytes cs).length = 4 * (byteInitTokenRests cs).length)
    ∧ isNaNF32Bits (byteInitTokenBits ("nan").data) = true
    ∧ byteInitTokenBits ("inf").data = negInfF32Bits
    ∧ byteInitTokenBits ("+inf").data = negInfF32Bits
    ∧ byteInitTokenBits ("-inf").data = posInfF32Bits
    ∧ byteInitTokenBits ("denorm").data = fltMinHalfF32Bits
    ∧ byteInitTokenBits ("-denorm").data = 2 ^ 31 + fltMinHalfF32Bits := by
  refine ⟨fun cs => ?_, by decide, by decide, by decide, by decide, by decide, by decide⟩
  have hjoin := parseInitLoop_eq_join (cs.length + 1) cs
  constructor
  · exact hjoin
  · show (parseInitLoop (cs.length + 1) cs).length = 4 * (tokenRestsLoop (cs.length + 1) cs).length
    rw [hjoin]
    exact flatten_tokenBytes_length (tokenRestsLoop (cs.length + 1) cs)

/-- The bit pattern of the smallest positive subnormal single precision
value 2 ^ (-149): the value the claim text assigns to the denorm token. -/
def smallestPosSubnormalF32Bits : Nat := 1

/-- C1 counterexample: the single token denorm stores the four bytes of
FLT_MIN / 2 = 2 ^ (-127), which differ from the bytes of the smallest
positive subnormal 2 ^ (-149) named by the claim. -/
theorem C1_denorm_not_smallest_subnormal :
    ParseResourceInitBytes ("denorm").data = f32LEBytes fltMinHalfF32Bits
    ∧ f32LEBytes fltMinHalfF32Bits ≠ f32LEBytes smallestPosSubnormalF32Bits := by
  exact ⟨by decide, by decide⟩

/-- Exact single precision bit pattern of a natural number below 2 ^ 24,
written independently of the decimal conversion path: the reference
encoding for the values 1.0, 2.0 and 3.0 of the claim. -/
def f32ExactNatBits (n : Nat) : Nat :=
  if n = 0 then 0
  else (natLog2 n + 127) * 2 ^ 23 + (n - 2 ^ natLog2 n) * 2 ^ (23 - natLog2 n)

/-- The attribute set of the C2 resource: a name, Init frombytes, and no
Width or Dimension attribute, so Width parses as zero and the dimension
defaults to BUFFER. -/
def c2Attrs : AttrMap := attrsOf [("Name", "U0"), ("Init", "frombytes")]

/-- The resource that parsing the C2 markup produces. -/
def c2Resource : ShaderOpResourceM :=
  { Name := some "U0", Init := some "frombytes", ReadBack := false,
    HeapProperties := ⟨1, 0, 0, 0, 0⟩,
    Desc := ⟨1, 0, 0, 1, 1, 1, 0, 1, 0, 1, 0⟩,
    HeapFlags := 0, InitialResourceState := 0, TransitionTo := 0,
    InitBytes := [0, 0, 128, 63, 0, 0, 0, 64, 0, 0, 64, 64] }

set_option maxRecDepth 200000 in
/-- C2: parsing a frombytes Resource with body 1.0, 2.0, 3.0 produces the
twelve-byte concatenation of the little-endian single precision encodings
of 1.0, 2.0 and 3.0; the Width attribute being absent parses as zero and
the dimension defaults to BUFFER, so the CreateResources width resolution
yields 12. -/
theorem C2_frombytes_width :
    parseResource c2Attrs (some ("1.0, 2.0, 3.0").data) = .ok c2Resource
    ∧ c2Resource.InitBytes =
        f32LEBytes (f32ExactNatBits 1) ++ f32LEBytes (f32ExactNatBits 2) ++
          f32LEBytes (f32ExactNatBits 3)
    ∧ c2Resource.InitBytes.length = 12
    ∧ c2Resource.Desc.Width = 0
    ∧ c2Resource.Desc.Dimension = D3D12_RESOURCE_DIMENSION_BUFFER
    ∧ resolveFromBytesWidth c2Resource = 12 := by
  exact ⟨by decide, by decide, by decide, by decide, by decide, by decide⟩

/-- C3: every Resource whose parsed dimension is BUFFER comes out of the
parser with Height 1, DepthOrArraySize 1, MipLevels 1, Format UNKNOWN,
SampleDesc count 1 and quality 0, and ROW_MAJOR layout, regardless of the
attribute values supplied in the markup. -/
theorem C3_buffer_desc_normalized (attrs : AttrMap) (body : Option (List Char))
    (r : ShaderOpResourceM) (h : parseResource attrs body = .ok r)
    (hdim : r.Desc.Dimension = D3D12_RESOURCE_DIMENSION_BUFFER) :
    r.Desc.Height = 1 ∧ r.Desc.DepthOrArraySize = 1 ∧ r.Desc.MipLevels = 1 ∧
    r.Desc.Format = DXGI_FORMAT_UNKNOWN ∧ r.Desc.SampleCount = 1 ∧
    r.Desc.SampleQuality = 0 ∧ r.Desc.Layout = D3D12_TEXTURE_LAYOUT_ROW_MAJOR := by
  obtain ⟨d0, hd⟩ := parseResource_desc_shape attrs body r h
  rw [hd] at hdim ⊢
  have hdim0 : d0.Dimension = D3D12_RESOURCE_DIMENSION_BUFFER := by
    rwa [fixup_preserves_dim] at hdim
  exact fixup_buffer_fields d0 hdim0

/-- The attribute set of the C3 witness: a buffer resource whose markup
tries to override every normalized field. -/
def c3Attrs : AttrMap := attrsOf [("Height", "7"), ("DepthOrArraySize", "9"),
  ("MipLevels", "5"), ("Format", "R32_FLOAT"), ("SampleCount", "4"),
  ("SampleQual", "2"), ("Layout", "STANDARD_SWIZZLE")]

/-- The resource the C3 witness markup parses to. -/
def c3Resource : ShaderOpResourceM :=
  { Name := none, Init := none, ReadBack := false,
    HeapProperties := ⟨1, 0, 0, 0, 0⟩,
    Desc := ⟨1, 0, 0, 1, 1, 1, 0, 1, 0, 1, 0⟩,
    HeapFlags := 0, InitialResourceState := 0, TransitionTo := 0,
    InitBytes := [] }

set_option maxRecDepth 200000 in
/-- Witness for C3: the override attempts are all discarded. -/
theorem C3_buffer_desc_normalized_witness :
    c3Resource.Desc.Height = 1 ∧ c3Resource.Desc.DepthOrArraySize = 1 ∧
    c3Resource.Desc.MipLevels = 1 ∧ c3Resource.Desc.Format = DXGI_FORMAT_UNKNOWN ∧
    c3Resource.Desc.SampleCount = 1 ∧ c3Resource.Desc.SampleQuality = 0 ∧
    c3Resource.Desc.Layout = D3D12_TEXTURE_LAYOUT_ROW_MAJOR :=
  C3_buffer_desc_normalized c3Attrs none c3Resource (by decide) (by decide)

/-- TargetUsesDxil from the source: the target string is longer than
three characters and the character at index 3 compares at or above the
digit 6 (the source comment reads xx_6xx). -/
def TargetUsesDxil (s : String) : Bool :=
  match s.data with
  | _ :: _ :: _ :: d :: _ => decide ('6' ≤ d)
  | _ => false

/-- The two compiler toolchains CreateShaders can route a shader to. -/
inductive ShaderToolchain where
  | dxc
  | legacy
deriving DecidableEq, Repr

/-- The routing decision of CreateShaders for one declared shader: the
modern DXC compiler when TargetUsesDxil holds for its target profile,
else the legacy D3DCompile path. -/
def CreateShadersRoute (target : String) : ShaderToolchain :=
  if TargetUsesDxil target then .dxc else .legacy

/-- True for an ASCII letter. -/
def isAsciiLetter (c : Char) : Bool :=
  ('a' ≤ c && c ≤ 'z') || ('A' ≤ c && c ≤ 'Z')

/-- Split a character list at underscores. -/
def splitUnderscores : List Char → List (List Char)
  | [] => [[]]
  | c :: rest =>
    let r := splitUnderscores rest
    if c = '_' then [] :: r
    else
      match r with
      | [] => [[c]]
      | g :: gs => (c :: g) :: gs

/-- Modelled from the claim and the d3d profile grammar: a well-formed
target profile string is stage_major_minor with a nonempty alphabetic
stage name, a nonempty decimal major version, and a nonempty minor part. -/
def wellFormedTargetProfile (s : String) : Bool :=
  match splitUnderscores s.data with
  | [stage, major, minor] =>
    !stage.isEmpty && stage.all isAsciiLetter &&
    !major.isEmpty && major.all Char.isDigit && !minor.isEmpty
  | _ => false

/-- The major version of a well-formed target profile string. -/
def targetProfileMajor (s : String) : Option Nat :=
  match splitUnderscores s.data with
  | [_, major, _] => some (digitsToNat major)
  | _ => none

/-- C5 counterexample: rootsig_1_0 is a well-formed target profile (the
profile the source itself compiles root signatures with) whose major
version is 1, yet CreateShaders would route it to the DXC toolchain,
because the character at index 3 is the letter t, which compares above
the digit 6; so routing does not equal the major-version test on every
well-formed target profile string. -/
theorem C5_rootsig_profile_counterexample :
    wellFormedTargetProfile "rootsig_1_0" = true
    ∧ targetProfileMajor "rootsig_1_0" = some 1
    ∧ CreateShadersRoute "rootsig_1_0" = ShaderToolchain.dxc
    ∧ ¬ (6 ≤ 1) := by
  exact ⟨by decide, by decide, by decide, by decide⟩

/-- C5 (amended): CreateShaders routes a shader to the DXC toolchain
exactly when the target string is longer than three characters and its
character at index 3 compares at or above the digit 6; for profiles of
the ordinary shape of a two-character stage, an underscore and a
single-digit major version (cs_6_0, ps_5_1) this coincides with the major
version being at least 6. -/
theorem C5_dxil_routing_amended (a b : Char) (m : Nat) (rest : List Char)
    (hm : m ≤ 9) :
    CreateShadersRoute (String.mk (a :: b :: '_' :: Char.ofNat (48 + m) :: rest)) =
      (if 6 ≤ m then ShaderToolchain.dxc else ShaderToolchain.legacy) := by
  interval_cases m <;> rfl

/-- Witness for C5 at the profile cs_6_0, which is routed to DXC. -/
theorem C5_dxil_routing_amended_witness :
    CreateShadersRoute (String.mk ('c' :: 's' :: '_' :: Char.ofNat (48 + 6) :: ('_' :: '0' :: []))) =
      (if 6 ≤ 6 then ShaderToolchain.dxc else ShaderToolchain.legacy) :=
  C5_dxil_routing_amended 'c' 's' 6 ('_' :: '0' :: []) (by decide)

/-- Index of a stored string with equal character content, modelling the
content hash-set lookup of string_table. The HashStr and PredStr helpers
live in the header, which is not among the sources here; modelled from
the spec: interning deduplicates by string content. -/
def stFind (arena : List String) (s : String) : Option Nat :=
  match arena with
  | [] => none
  | t :: rest => if t = s then some 0 else (stFind rest s).map (· + 1)

/-- string_table insert: return the stored copy with equal content when
one exists, else append a fresh copy whose storage stays stable from then
on. The returned index stands for the stable pointer the source returns. -/
def string_table_insert (arena : List String) (s : String) : List String × Nat :=
  match stFind arena s with
  | some i => (arena, i)
  | none => (arena ++ [s], arena.length)

theorem stFind_get (arena : List String) (s : String) (i : Nat)
    (h : stFind arena s = some i) : arena[i]? = some s := by
  induction arena generalizing i with
  | nil => simp [stFind] at h
  | cons t rest ih =>
    rw [stFind] at h
    split at h
    · cases h
      simp [*]
    · cases hf : stFind rest s with
      | none => rw [hf] at h; simp at h
      | some j =>
        rw [hf] at h
        simp at h
        subst h
        simpa using ih j hf

theorem stFind_append_self (arena : List String) (s : String)
    (h : stFind arena s = none) : stFind (arena ++ [s]) s = some arena.length := by
  induction arena with
  | nil => simp [stFind]
  | cons t rest ih =>
    rw [stFind] at h
    split at h
    · cases h
    · cases hf : stFind rest s with
      | none =>
        rw [List.cons_append, stFind]
        rw [if_neg (by assumption)]
        simp [ih hf]
      | some j => rw [hf] at h; simp at h

theorem get_append_length (l : List String) (a : String) :
    (l ++ [a])[l.length]? = some a := by
  induction l with
  | nil => simp
  | cons x xs ih => simp

theorem get_append_of_some (l l2 : List String) (i : Nat) (a : String)
    (h : l[i]? = some a) : (l ++ l2)[i]? = some a := by
  induction l generalizing i with
  | nil => simp at h
  | cons x xs ih =>
    cases i with
    | zero => simpa using h
    | succ j =>
      simp only [List.cons_append, List.getElem?_cons_succ] at h ⊢
      exact ih j h

theorem string_table_insert_get (arena : List String) (s : String) :
    (string_table_insert arena s).1[(string_table_insert arena s).2]? = some s := by
  cases h : stFind arena s with
  | some i =>
    simp only [string_table_insert, h]
    exact stFind_get arena s i h
  | none =>
    simp only [string_table_insert, h]
    exact get_append_length arena s

theorem string_table_insert_preserves_get (arena : List String) (t : String)
    (i : Nat) (a : String) (h : arena[i]? = some a) :
    (string_table_insert arena t).1[i]? = some a := by
  cases hf : stFind arena t with
  | some j => simpa only [string_table_insert, hf] using h
  | none =>
    simp only [string_table_insert, hf]
    exact get_append_of_some arena [t] i a h

/-- C9: string interning is idempotent on content and injective on
distinct content: inserting the same content again returns the same table
and the same stored object; the stored object carries the inserted
content; and after inserting two different contents the two returned
objects hold the two different strings, so they never alias. -/
theorem C9_string_table_interning (arena : List String) (s t : String) :
    string_table_insert (string_table_insert arena s).1 s = string_table_insert arena s
    ∧ (string_table_insert arena s).1[(string_table_insert arena s).2]? = some s
    ∧ (s ≠ t →
        (string_table_insert (string_table_insert arena s).1 t).1[(string_table_insert arena s).2]? = some s
        ∧ (string_table_insert (string_table_insert arena s).1 t).1[(string_table_insert (string_table_insert arena s).1 t).2]? = some t
        ∧ (string_table_insert arena s).2 ≠ (string_table_insert (string_table_insert arena s).1 t).2) := by
  refine ⟨?_, string_table_insert_get arena s, fun hst => ?_⟩
  · cases h : stFind arena s with
    | some i => simp [string_table_insert, h]
    | none =>
      have hf := stFind_append_self arena s h
      simp only [string_table_insert, h, hf]
  · have hs1 := string_table_insert_preserves_get
      (string_table_insert arena s).1 t (string_table_insert arena s).2 s
      (string_table_insert_get arena s)
    have ht1 := string_table_insert_get (string_table_insert arena s).1 t
    refine ⟨hs1, ht1, fun he => ?_⟩
    rw [he] at hs1
    exact hst (Option.some.inj (hs1.symm.trans ht1))

/-- Witness for C9 with an empty table and the distinct names A and B. -/
theorem C9_string_table_interning_witness :
    (string_table_insert (string_table_insert [] "A").1 "B").1[(string_table_insert [] "A").2]? = some "A"
    ∧ (string_table_insert (string_table_insert [] "A").1 "B").1[(string_table_insert (string_table_insert [] "A").1 "B").2]? = some "B"
    ∧ (string_table_insert [] "A").2 ≠ (string_table_insert (string_table_insert [] "A").1 "B").2 :=
  (C9_string_table_interning [] "A" "B").2.2 (by decide)

/-- D3D12_BUFFER_UAV_FLAG_RAW. -/
def D3D12_BUFFER_UAV_FLAG_RAW : Nat := 1

/-- Buffer member of the view description union. -/
structure UavBufferM where
  FirstElement : Nat
  NumElements : Nat
  StructureByteStride : Nat
  CounterOffsetInBytes : Nat
  Flags : Nat
deriving DecidableEq, Repr

/-- Texture1D member of the view description union. -/
structure UavTexture1DM where
  MipSlice : Nat
deriving DecidableEq, Repr

/-- Texture1DArray member of the view description union. -/
structure UavTexture1DArrayM where
  MipSlice : Nat
  FirstArraySlice : Nat
  ArraySize : Nat
deriving DecidableEq, Repr

/-- Texture2D member of the view description union. -/
structure UavTexture2DM where
  MipSlice : Nat
  PlaneSlice : Nat
deriving DecidableEq, Repr

/-- Texture2DArray member of the view description union. -/
structure UavTexture2DArrayM where
  MipSlice : Nat
  FirstArraySlice : Nat
  ArraySize : Nat
  PlaneSlice : Nat
deriving DecidableEq, Repr

/-- Texture3D member of the view description union. -/
structure UavTexture3DM where
  MipSlice : Nat
  FirstWSlice : Nat
  WSize : Nat
deriving DecidableEq, Repr

/-- D3D12_UNORDERED_ACCESS_VIEW_DESC. In C the dimension members overlap
in a union; the parser writes only the member of the parsed dimension and
view creation reads only that member, so disjoint fields model it
faithfully, with zero for members the parser leaves untouched. -/
structure UavDescM where
  Format : Nat
  ViewDimension : Nat
  Buffer : UavBufferM
  Texture1D : UavTexture1DM
  Texture1DArray : UavTexture1DArrayM
  Texture2D : UavTexture2DM
  Texture2DArray : UavTexture2DArrayM
  Texture3D : UavTexture3DM
deriving DecidableEq, Repr

/-- The all-zero view description. -/
def zeroUavDesc : UavDescM :=
  ⟨0, 0, ⟨0, 0, 0, 0, 0⟩, ⟨0⟩, ⟨0, 0, 0⟩, ⟨0, 0⟩, ⟨0, 0, 0, 0⟩, ⟨0, 0, 0⟩⟩

/-- ShaderOpDescriptor as produced by ParseDescriptor. -/
structure ShaderOpDescriptorM where
  Name : Option String
  ResName : Option String
  CounterName : Option String
  Kind : Option String
  UavDesc : UavDescM
deriving DecidableEq, Repr

/-- Flags attribute test of the buffer case: present, nonempty, and equal
to RAW case-insensitively. -/
def bufferFlagsRaw (o : Option String) : Bool :=
  match o with
  | none => false
  | some s => !s.isEmpty && wcsicmpEq s.data ("RAW").data

/-- The dimension switch of ParseDescriptor: each case reads the
attributes of its union member. The BUFFER case applies the RAW format
back-fill when the Format attribute was absent. The TEXTURE2DARRAY case
reads the MipSlice attribute a second time into PlaneSlice, exactly as
the source does. A dimension outside the listed cases reads nothing. -/
def parseUavBranch (attrs : AttrMap) (fmtPresent : Bool) (fmt dim : Nat) :
    Except PErr UavDescM :=
  if dim = D3D12_UAV_DIMENSION_BUFFER then
    match ReadAttrUINT64 attrs "FirstElement" 0 with
    | .error e => .error e
    | .ok fe =>
    match ReadAttrUINT attrs "NumElements" 0 with
    | .error e => .error e
    | .ok ne =>
    match ReadAttrUINT attrs "StructureByteStride" 0 with
    | .error e => .error e
    | .ok sbs =>
    match ReadAttrUINT64 attrs "CounterOffsetInBytes" 0 with
    | .error e => .error e
    | .ok coib =>
    .ok { zeroUavDesc with
          Format :=
            if !fmtPresent && bufferFlagsRaw (ReadAttrStr attrs "Flags") then
              DXGI_FORMAT_R32_TYPELESS
            else fmt,
          ViewDimension := dim,
          Buffer := ⟨fe, ne, sbs, coib,
            if bufferFlagsRaw (ReadAttrStr attrs "Flags") then
              D3D12_BUFFER_UAV_FLAG_RAW
            else 0⟩ }
  else if dim = D3D12_UAV_DIMENSION_TEXTURE1D then
    match ReadAttrUINT attrs "MipSlice" 0 with
    | .error e => .error e
    | .ok ms =>
    .ok { zeroUavDesc with Format := fmt, ViewDimension := dim, Texture1D := ⟨ms⟩ }
  else if dim = D3D12_UAV_DIMENSION_TEXTURE1DARRAY then
    match ReadAttrUINT attrs "MipSlice" 0 with
    | .error e => .error e
    | .ok ms =>
    match ReadAttrUINT attrs "FirstArraySlice" 0 with
    | .error e => .error e
    | .ok fas =>
    match ReadAttrUINT attrs "ArraySize" 0 with
    | .error e => .error e
    | .ok asz =>
    .ok { zeroUavDesc with
          Format := fmt, ViewDimension := dim, Texture1DArray := ⟨ms, fas, asz⟩ }
  else if dim = D3D12_UAV_DIMENSION_TEXTURE2D then
    match ReadAttrUINT attrs "MipSlice" 0 with
    | .error e => .error e
    | .ok ms =>
    match ReadAttrUINT attrs "PlaneSlice" 0 with
    | .error e => .error e
    | .ok ps =>
    .ok { zeroUavDesc with Format := fmt, ViewDimension := dim, Texture2D := ⟨ms, ps⟩ }
  else if dim = D3D12_UAV_DIMENSION_TEXTURE2DARRAY then
    match ReadAttrUINT attrs "MipSlice" 0 with
    | .error e => .error e
    | .ok ms =>
    match ReadAttrUINT attrs "FirstArraySlice" 0 with
    | .error e => .error e
    | .ok fas =>
    match ReadAttrUINT attrs "ArraySize" 0 with
    | .error e => .error e
    | .ok asz =>
    match ReadAttrUINT attrs "MipSlice" 0 with
    | .error e => .error e
    | .ok ps =>
    .ok { zeroUavDesc with
          Format := fmt, ViewDimension := dim, Texture2DArray := ⟨ms, fas, asz, ps⟩ }
  else if dim = D3D12_UAV_DIMENSION_TEXTURE3D then
    match ReadAttrUINT attrs "MipSlice" 0 with
    | .error e => .error e
    | .ok ms =>
    match ReadAttrUINT attrs "FirstWSlice" 0 with
    | .error e => .error e
    | .ok fws =>
    match ReadAttrUINT attrs "WSize" 0 with
    | .error e => .error e
    | .ok ws =>
    .ok { zeroUavDesc with
          Format := fmt, ViewDimension := dim, Texture3D := ⟨ms, fws, ws⟩ }
  else
    .ok { zeroUavDesc with Format := fmt, ViewDimension := dim }

/-- The first defaulting step at the end of ParseDescriptor: a missing
ResName takes the value of Name. -/
def descResNameDefaulted (attrs : AttrMap) : Option String :=
  if (ReadAttrStr attrs "Name").isSome && (ReadAttrStr attrs "ResName").isNone then
    ReadAttrStr attrs "Name"
  else ReadAttrStr attrs "ResName"

/-- The second defaulting step, after the first: a missing Name takes the
already-defaulted ResName. -/
def descNameDefaulted (attrs : AttrMap) : Option String :=
  if (descResNameDefaulted attrs).isSome && (ReadAttrStr attrs "Name").isNone then
    descResNameDefaulted attrs
  else ReadAttrStr attrs "Name"

/-- The attribute reads of ParseDescriptor before the Kind validation:
Format with its presence flag, the view dimension (default BUFFER), the
dimension switch, and the mutual defaulting of Name and ResName. -/
def parseDescriptorCore (attrs : AttrMap) : Except PErr ShaderOpDescriptorM :=
  match ReadAttrEnumPresent attrs "Format" .DXGI_FORMAT DXGI_FORMAT_UNKNOWN with
  | .error e => .error e
  | .ok fp =>
  match ReadAttrEnum attrs "Dimension" .UAV_DIMENSION D3D12_UAV_DIMENSION_BUFFER with
  | .error e => .error e
  | .ok dim =>
  match parseUavBranch attrs fp.2 fp.1 dim with
  | .error e => .error e
  | .ok uav =>
  .ok { Name := descNameDefaulted attrs, ResName := descResNameDefaulted attrs,
        CounterName := ReadAttrStr attrs "CounterName",
        Kind := ReadAttrStr attrs "Kind", UavDesc := uav }

/-- The Kind values ParseDescriptor accepts, compared case-insensitively
in source order. -/
def descriptorKindOk (k : String) : Bool :=
  wcsicmpEq k.data ("UAV").data || wcsicmpEq k.data ("SRV").data ||
  wcsicmpEq k.data ("CBV").data || wcsicmpEq k.data ("RTV").data

/-- ShaderOpParser::ParseDescriptor: the attribute reads followed by the
Kind validation at the end of the function: a missing Kind and a Kind
outside UAV, SRV, CBV, RTV are the two E_INVALIDARG failures. -/
def parseDescriptor (attrs : AttrMap) : Except PErr ShaderOpDescriptorM :=
  match parseDescriptorCore attrs with
  | .error e => .error e
  | .ok d =>
    match d.Kind with
    | none => .error .missingKind
    | some k => if descriptorKindOk k then .ok d else .error .unknownKind

theorem setAttr_ne (attrs : AttrMap) (name : String) (v : Option String)
    (m : String) (h : m ≠ name) : setAttr attrs name v m = attrs m := by
  simp [setAttr, h]

theorem parseDescriptorCore_kind (attrs : AttrMap) (d : ShaderOpDescriptorM)
    (h : parseDescriptorCore attrs = .ok d) : d.Kind = attrs "Kind" := by
  unfold parseDescriptorCore at h
  repeat' split at h
  all_goals cases h
  all_goals rfl

theorem parseDescriptor_ok_core (attrs : AttrMap) (r : ShaderOpDescriptorM)
    (h : parseDescriptor attrs = .ok r) : parseDescriptorCore attrs = .ok r := by
  unfold parseDescriptor at h
  cases hcore : parseDescriptorCore attrs with
  | error e =>
    simp only [hcore] at h
    exact absurd h (by simp)
  | ok d =>
    simp only [hcore] at h
    cases hk : d.Kind with
    | none =>
      simp only [hk] at h
      exact absurd h (by simp)
    | some k =>
      simp only [hk] at h
      split at h
      · exact h
      · exact absurd h (by simp)

theorem parseDescriptor_ok_kind (attrs : AttrMap) (r : ShaderOpDescriptorM)
    (h : parseDescriptor attrs = .ok r) :
    ∃ k, attrs "Kind" = some k ∧ descriptorKindOk k = true := by
  unfold parseDescriptor at h
  cases hcore : parseDescriptorCore attrs with
  | error e =>
    simp only [hcore] at h
    exact absurd h (by simp)
  | ok d =>
    simp only [hcore] at h
    have hdk := parseDescriptorCore_kind attrs d hcore
    cases hk : d.Kind with
    | none =>
      simp only [hk] at h
      exact absurd h (by simp)
    | some k =>
      simp only [hk] at h
      split at h
      · exact ⟨k, by rw [← hdk, hk], by assumption⟩
      · exact absurd h (by simp)

/-- C8: a Descriptor element fails to parse when the Kind attribute is
absent (with the missing-kind invalid-argument failure when all other
reads succeed), fails when the Kind is none of UAV, SRV, CBV, RTV
compared case-insensitively (with the unknown-kind failure when all other
reads succeed), and for any of those four kinds the Kind validation does
not fail: the parse returns the descriptor the attribute reads built. -/
theorem C8_descriptor_kind_validation (attrs : AttrMap) :
    (attrs "Kind" = none → ∀ r, parseDescriptor attrs ≠ .ok r)
    ∧ (∀ d, parseDescriptorCore attrs = .ok d → attrs "Kind" = none →
        parseDescriptor attrs = .error .missingKind)
    ∧ (∀ k, attrs "Kind" = some k → descriptorKindOk k = false →
        ∀ r, parseDescriptor attrs ≠ .ok r)
    ∧ (∀ d k, parseDescriptorCore attrs = .ok d → attrs "Kind" = some k →
        descriptorKindOk k = false → parseDescriptor attrs = .error .unknownKind)
    ∧ (∀ d k, parseDescriptorCore attrs = .ok d → attrs "Kind" = some k →
        descriptorKindOk k = true → parseDescriptor attrs = .ok d) := by
  refine ⟨?_, ?_, ?_, ?_, ?_⟩
  · intro hnone r hok
    obtain ⟨k, hk, _⟩ := parseDescriptor_ok_kind attrs r hok
    rw [hnone] at hk
    cases hk
  · intro d hcore hnone
    have hdk := parseDescriptorCore_kind attrs d hcore
    unfold parseDescriptor
    simp only [hcore, hdk, hnone]
  · intro k hk hbad r hok
    obtain ⟨k2, hk2, hok2⟩ := parseDescriptor_ok_kind attrs r hok
    rw [hk] at hk2
    cases hk2
    rw [hok2] at hbad
    cases hbad
  · intro d k hcore hk hbad
    have hdk := parseDescriptorCore_kind attrs d hcore
    unfold parseDescriptor
    simp only [hcore, hdk, hk, hbad]
    simp
  · intro d k hcore hk hgood
    have hdk := parseDescriptorCore_kind attrs d hcore
    unfold parseDescriptor
    simp only [hcore, hdk, hk, hgood]
    simp

/-- The descriptor the C8 witness attribute sets produce, parametrized by
the Kind attribute value: everything else takes its default. -/
def c8BaseDesc (k : Option String) : ShaderOpDescriptorM :=
  { Name := none, ResName := none, CounterName := none, Kind := k,
    UavDesc := { zeroUavDesc with ViewDimension := D3D12_UAV_DIMENSION_BUFFER } }

/-- Witness for C8: a missing Kind fails with the missing-kind error, the
kind XAV fails with the unknown-kind error, and the kind UAV passes. -/
theorem C8_descriptor_kind_validation_witness :
    parseDescriptor (attrsOf []) = .error .missingKind
    ∧ parseDescriptor (attrsOf [("Kind", "XAV")]) = .error .unknownKind
    ∧ parseDescriptor (attrsOf [("Kind", "UAV")]) = .ok (c8BaseDesc (some "UAV")) :=
  ⟨(C8_descriptor_kind_validation (attrsOf [])).2.1 (c8BaseDesc none)
      (by decide) (by decide),
   (C8_descriptor_kind_validation (attrsOf [("Kind", "XAV")])).2.2.2.1
      (c8BaseDesc (some "XAV")) "XAV" (by decide) (by decide) (by decide),
   (C8_descriptor_kind_validation (attrsOf [("Kind", "UAV")])).2.2.2.2
      (c8BaseDesc (some "UAV")) "UAV" (by decide) (by decide) (by decide)⟩

theorem parseUavBranch_buffer_format (attrs : AttrMap) (fmt : Nat) (uav : UavDescM)
    (h : parseUavBranch attrs false fmt D3D12_UAV_DIMENSION_BUFFER = .ok uav) :
    uav.Format =
      (if bufferFlagsRaw (attrs "Flags") then DXGI_FORMAT_R32_TYPELESS else fmt) := by
  unfold parseUavBranch at h
  rw [if_pos rfl] at h
  repeat' split at h
  all_goals cases h
  all_goals simp_all [ReadAttrStr]

/-- C7: for a Descriptor with Kind UAV and Dimension BUFFER whose Format
attribute is absent, the parsed view format is back-filled to
R32_TYPELESS exactly when the Flags attribute matches RAW; otherwise the
absent Format keeps the UNKNOWN default. -/
theorem C7_uav_raw_format_backfill (attrs : AttrMap) (r : ShaderOpDescriptorM)
    (hfmt : attrs "Format" = none)
    (hkind : attrs "Kind" = some "UAV")
    (hdim : attrs "Dimension" = some "BUFFER")
    (h : parseDescriptor attrs = .ok r) :
    r.UavDesc.Format =
      (if bufferFlagsRaw (attrs "Flags") then DXGI_FORMAT_R32_TYPELESS
       else DXGI_FORMAT_UNKNOWN) := by
  have hcore := parseDescriptor_ok_core attrs r h
  have hfp : ReadAttrEnumPresent attrs "Format" .DXGI_FORMAT DXGI_FORMAT_UNKNOWN =
      .ok (DXGI_FORMAT_UNKNOWN, false) := by
    simp [ReadAttrEnumPresent, hfmt]
  have hrd : ReadAttrEnum attrs "Dimension" .UAV_DIMENSION D3D12_UAV_DIMENSION_BUFFER =
      .ok D3D12_UAV_DIMENSION_BUFFER := by
    simp only [ReadAttrEnum, hdim]
    rfl
  unfold parseDescriptorCore at hcore
  simp only [hfp, hrd] at hcore
  cases hb : parseUavBranch attrs false DXGI_FORMAT_UNKNOWN D3D12_UAV_DIMENSION_BUFFER with
  | error e =>
    simp only [hb] at hcore
    exact absurd hcore (by simp)
  | ok uav =>
    simp only [hb] at hcore
    cases hcore
    exact parseUavBranch_buffer_format attrs DXGI_FORMAT_UNKNOWN uav hb

/-- The attribute set of the C7 witness: Kind UAV, Dimension BUFFER,
Flags RAW, and no Format attribute. -/
def c7Attrs : AttrMap :=
  attrsOf [("Kind", "UAV"), ("Dimension", "BUFFER"), ("NumElements", "4"), ("Flags", "RAW")]

/-- The descriptor the C7 witness attributes parse to: the absent Format
is back-filled to R32_TYPELESS because of the RAW flag. -/
def c7Desc : ShaderOpDescriptorM :=
  { Name := none, ResName := none, CounterName := none, Kind := some "UAV",
    UavDesc := { zeroUavDesc with
                 Format := DXGI_FORMAT_R32_TYPELESS,
                 ViewDimension := D3D12_UAV_DIMENSION_BUFFER,
                 Buffer := ⟨0, 4, 0, 0, D3D12_BUFFER_UAV_FLAG_RAW⟩ } }

set_option maxRecDepth 200000 in
/-- Witness for C7 at the RAW case. -/
theorem C7_uav_raw_format_backfill_witness :
    c7Desc.UavDesc.Format =
      (if bufferFlagsRaw (c7Attrs "Flags") then DXGI_FORMAT_R32_TYPELESS
       else DXGI_FORMAT_UNKNOWN) :=
  C7_uav_raw_format_backfill c7Attrs c7Desc (by decide) (by decide) (by decide) (by decide)

theorem ReadAttrStr_congr (attrs attrs2 : AttrMap) (n : String)
    (h : attrs2 n = attrs n) : ReadAttrStr attrs2 n = ReadAttrStr attrs n := h

theorem ReadAttrUINT64_congr (attrs attrs2 : AttrMap) (n : String) (d : Nat)
    (h : attrs2 n = attrs n) :
    ReadAttrUINT64 attrs2 n d = ReadAttrUINT64 attrs n d := by
  unfold ReadAttrUINT64
  rw [h]

theorem ReadAttrUINT_congr (attrs attrs2 : AttrMap) (n : String) (d : Nat)
    (h : attrs2 n = attrs n) :
    ReadAttrUINT attrs2 n d = ReadAttrUINT attrs n d := by
  unfold ReadAttrUINT
  rw [ReadAttrUINT64_congr attrs attrs2 n d h]

theorem ReadAttrEnum_congr (attrs attrs2 : AttrMap) (n : String)
    (K : ParserEnumKind) (d : Nat) (h : attrs2 n = attrs n) :
    ReadAttrEnum attrs2 n K d = ReadAttrEnum attrs n K d := by
  unfold ReadAttrEnum
  rw [h]

theorem ReadAttrEnumPresent_congr (attrs attrs2 : AttrMap) (n : String)
    (K : ParserEnumKind) (d : Nat) (h : attrs2 n = attrs n) :
    ReadAttrEnumPresent attrs2 n K d = ReadAttrEnumPresent attrs n K d := by
  unfold ReadAttrEnumPresent
  rw [h]

/-- The TEXTURE2DARRAY case assigns PlaneSlice from the MipSlice
attribute, the same attribute its MipSlice field is read from, so the two
fields are always equal. -/
theorem parseUavBranch_tex2da_planeslice (attrs : AttrMap) (p : Bool) (fmt : Nat)
    (uav : UavDescM)
    (h : parseUavBranch attrs p fmt D3D12_UAV_DIMENSION_TEXTURE2DARRAY = .ok uav) :
    uav.Texture2DArray.PlaneSlice = uav.Texture2DArray.MipSlice := by
  unfold parseUavBranch at h
  rw [if_neg (by decide), if_neg (by decide), if_neg (by decide), if_neg (by decide),
    if_pos rfl] at h
  repeat' split at h
  all_goals cases h
  all_goals simp_all

/-- The dimension switch never reads the PlaneSlice attribute except in
the TEXTURE2D case, so two attribute sets that differ only at PlaneSlice
parse identically for every other dimension. -/
theorem parseUavBranch_congr (attrs attrs2 : AttrMap)
    (h : ∀ m, m ≠ "PlaneSlice" → attrs2 m = attrs m)
    (p : Bool) (f dim : Nat) (hne : dim ≠ D3D12_UAV_DIMENSION_TEXTURE2D) :
    parseUavBranch attrs2 p f dim = parseUavBranch attrs p f dim := by
  unfold parseUavBranch
  rw [ReadAttrUINT64_congr attrs attrs2 "FirstElement" 0 (h _ (by decide)),
    ReadAttrUINT_congr attrs attrs2 "NumElements" 0 (h _ (by decide)),
    ReadAttrUINT_congr attrs attrs2 "StructureByteStride" 0 (h _ (by decide)),
    ReadAttrUINT64_congr attrs attrs2 "CounterOffsetInBytes" 0 (h _ (by decide)),
    ReadAttrStr_congr attrs attrs2 "Flags" (h _ (by decide)),
    ReadAttrUINT_congr attrs attrs2 "MipSlice" 0 (h _ (by decide)),
    ReadAttrUINT_congr attrs attrs2 "FirstArraySlice" 0 (h _ (by decide)),
    ReadAttrUINT_congr attrs attrs2 "ArraySize" 0 (h _ (by decide)),
    ReadAttrUINT_congr attrs attrs2 "FirstWSlice" 0 (h _ (by decide)),
    ReadAttrUINT_congr attrs attrs2 "WSize" 0 (h _ (by decide))]
  split_ifs <;> first
    | rfl
    | exact absurd (by assumption) hne

/-- parseUavBranch_congr specialized to TEXTURE2DARRAY. -/
theorem parseUavBranch_congr_t2da (attrs attrs2 : AttrMap)
    (h : ∀ m, m ≠ "PlaneSlice" → attrs2 m = attrs m) (p : Bool) (f : Nat) :
    parseUavBranch attrs2 p f D3D12_UAV_DIMENSION_TEXTURE2DARRAY =
      parseUavBranch attrs p f D3D12_UAV_DIMENSION_TEXTURE2DARRAY :=
  parseUavBranch_congr attrs attrs2 h p f _ (by decide)

theorem descResNameDefaulted_congr (attrs attrs2 : AttrMap)
    (hN : attrs2 "Name" = attrs "Name") (hR : attrs2 "ResName" = attrs "ResName") :
    descResNameDefaulted attrs2 = descResNameDefaulted attrs := by
  unfold descResNameDefaulted
  rw [ReadAttrStr_congr attrs attrs2 "Name" hN,
    ReadAttrStr_congr attrs attrs2 "ResName" hR]

theorem descNameDefaulted_congr (attrs attrs2 : AttrMap)
    (hN : attrs2 "Name" = attrs "Name") (hR : attrs2 "ResName" = attrs "ResName") :
    descNameDefaulted attrs2 = descNameDefaulted attrs := by
  unfold descNameDefaulted
  rw [descResNameDefaulted_congr attrs attrs2 hN hR,
    ReadAttrStr_congr attrs attrs2 "Name" hN]

/-- A supplied PlaneSlice attribute never affects the parse of a
Descriptor whose Dimension attribute is TEXTURE2DARRAY. -/
theorem parseDescriptorCore_planeslice_congr (attrs : AttrMap) (v : Option String)
    (hdim : attrs "Dimension" = some "TEXTURE2DARRAY") :
    parseDescriptorCore (setAttr attrs "PlaneSlice" v) = parseDescriptorCore attrs := by
  have hs : ∀ m, m ≠ "PlaneSlice" → setAttr attrs "PlaneSlice" v m = attrs m :=
    fun m hm => setAttr_ne attrs "PlaneSlice" v m hm
  have hrdim : ReadAttrEnum attrs "Dimension" .UAV_DIMENSION
      D3D12_UAV_DIMENSION_BUFFER = .ok D3D12_UAV_DIMENSION_TEXTURE2DARRAY := by
    simp only [ReadAttrEnum, hdim]
    rfl
  unfold parseDescriptorCore
  simp only [ReadAttrEnumPresent_congr attrs (setAttr attrs "PlaneSlice" v) "Format"
      ParserEnumKind.DXGI_FORMAT DXGI_FORMAT_UNKNOWN (hs _ (by decide)),
    ReadAttrEnum_congr attrs (setAttr attrs "PlaneSlice" v) "Dimension"
      ParserEnumKind.UAV_DIMENSION D3D12_UAV_DIMENSION_BUFFER (hs _ (by decide)),
    hrdim,
    parseUavBranch_congr_t2da attrs (setAttr attrs "PlaneSlice" v) hs,
    descNameDefaulted_congr attrs (setAttr attrs "PlaneSlice" v)
      (hs _ (by decide)) (hs _ (by decide)),
    descResNameDefaulted_congr attrs (setAttr attrs "PlaneSlice" v)
      (hs _ (by decide)) (hs _ (by decide)),
    ReadAttrStr_congr attrs (setAttr attrs "PlaneSlice" v) "CounterName" (hs _ (by decide)),
    ReadAttrStr_congr attrs (setAttr attrs "PlaneSlice" v) "Kind" (hs _ (by decide))]

/-- C10: for a Descriptor with Dimension TEXTURE2DARRAY, the parsed
PlaneSlice always equals the parsed MipSlice, because both are read from
the MipSlice attribute; and a supplied PlaneSlice attribute is never
read: overriding it does not change the parse at all. -/
theorem C10_texture2darray_planeslice (attrs : AttrMap) (r : ShaderOpDescriptorM)
    (v : Option String) (hdim : attrs "Dimension" = some "TEXTURE2DARRAY")
    (h : parseDescriptor attrs = .ok r) :
    r.UavDesc.Texture2DArray.PlaneSlice = r.UavDesc.Texture2DArray.MipSlice
    ∧ parseDescriptor (setAttr attrs "PlaneSlice" v) = parseDescriptor attrs := by
  constructor
  · have hcore := parseDescriptor_ok_core attrs r h
    have hrdim : ReadAttrEnum attrs "Dimension" .UAV_DIMENSION
        D3D12_UAV_DIMENSION_BUFFER = .ok D3D12_UAV_DIMENSION_TEXTURE2DARRAY := by
      simp only [ReadAttrEnum, hdim]
      rfl
    unfold parseDescriptorCore at hcore
    cases hf : ReadAttrEnumPresent attrs "Format" .DXGI_FORMAT DXGI_FORMAT_UNKNOWN with
    | error e =>
      simp only [hf] at hcore
      exact absurd hcore (by simp)
    | ok fp =>
      simp only [hf, hrdim] at hcore
      cases hb : parseUavBranch attrs fp.2 fp.1 D3D12_UAV_DIMENSION_TEXTURE2DARRAY with
      | error e =>
        simp only [hb] at hcore
        exact absurd hcore (by simp)
      | ok uav =>
        simp only [hb] at hcore
        cases hcore
        exact parseUavBranch_tex2da_planeslice attrs fp.2 fp.1 uav hb
  · unfold parseDescriptor
    rw [parseDescriptorCore_planeslice_congr attrs v hdim]

/-- The attribute set of the C10 witness: dimension TEXTURE2DARRAY with a
MipSlice of 3 and an explicit PlaneSlice of 9 that the parser ignores. -/
def c10Attrs : AttrMap :=
  attrsOf [("Kind", "UAV"), ("Dimension", "TEXTURE2DARRAY"), ("MipSlice", "3"),
    ("PlaneSlice", "9"), ("ArraySize", "2")]

/-- The descriptor the C10 witness attributes parse to: PlaneSlice is 3,
copied from MipSlice, not the supplied 9. -/
def c10Desc : ShaderOpDescriptorM :=
  { Name := none, ResName := none, CounterName := none, Kind := some "UAV",
    UavDesc := { zeroUavDesc with
                 ViewDimension := D3D12_UAV_DIMENSION_TEXTURE2DARRAY,
                 Texture2DArray := ⟨3, 0, 2, 3⟩ } }

set_option maxRecDepth 200000 in
/-- Witness for C10. -/
theorem C10_texture2darray_planeslice_witness :
    c10Desc.UavDesc.Texture2DArray.PlaneSlice = c10Desc.UavDesc.Texture2DArray.MipSlice
    ∧ parseDescriptor (setAttr c10Attrs "PlaneSlice" (some "7")) = parseDescriptor c10Attrs :=
  C10_texture2darray_planeslice c10Attrs c10Desc (some "7") (by decide) (by decide)

/-! ## C4: SetRootValues binding selection

`ShaderOpTest::SetRootValues` walks `RootValues` with index `i`, computes
`idx = V.Index == 0 ? i : V.Index`, and for a resource-bound value switches on
the resource's `TransitionTo` state to choose between a root CBV
(`VERTEX_AND_CONSTANT_BUFFER`), root UAV (`UNORDERED_ACCESS`) and root SRV
(default); a heap-bound value binds the heap's base GPU handle as a
descriptor table.  A value with neither name emits nothing.  `isCompute`
only selects the `SetCompute*`/`SetGraphics*` entry points, not the binding
kind, so the model abstracts it away and records the emitted bindings. -/

/-- The data SetRootValues reads from `m_ResourceData` for one resource:
its declared transition-target state and its GPU virtual address. -/
structure ResInfoM where
  TransitionTo : Nat
  GpuVA : Nat
deriving DecidableEq

/-- ShaderOpRootValue: resource name, heap name, explicit root slot. -/
structure RootValueM where
  ResName : Option String
  HeapName : Option String
  Index : Nat
deriving DecidableEq

/-- One root binding emitted on the command list. -/
inductive RootBindingM where
  | cbv (slot : Nat) (addr : Nat)
  | uav (slot : Nat) (addr : Nat)
  | srv (slot : Nat) (addr : Nat)
  | table (slot : Nat) (handle : Nat)
deriving DecidableEq

/-- The body of one loop iteration of SetRootValues: `.error` models the
CHECK_HR(E_INVALIDARG) abort on a missing resource name, `.ok none` an
iteration that binds nothing, `.ok (some b)` the emitted binding. -/
def bindOneRootValue (res : String → Option ResInfoM) (heaps : String → Nat)
    (i : Nat) (V : RootValueM) : Except String (Option RootBindingM) :=
  let idx := if V.Index = 0 then i else V.Index
  match V.ResName with
  | some rn =>
    match res rn with
    | none => .error rn
    | some D =>
      if D.TransitionTo = D3D12_RESOURCE_STATE_VERTEX_AND_CONSTANT_BUFFER then
        .ok (some (.cbv idx D.GpuVA))
      else if D.TransitionTo = D3D12_RESOURCE_STATE_UNORDERED_ACCESS then
        .ok (some (.uav idx D.GpuVA))
      else
        .ok (some (.srv idx D.GpuVA))
  | none =>
    match V.HeapName with
    | some hn => .ok (some (.table idx (heaps hn)))
    | none => .ok none

/-- ShaderOpTest::SetRootValues, as the list of bindings it issues in order;
`i` is the loop counter. -/
def SetRootValues (res : String → Option ResInfoM) (heaps : String → Nat) :
    Nat → List RootValueM → Except String (List RootBindingM)
  | _, [] => .ok []
  | i, V :: rest =>
    match bindOneRootValue res heaps i V with
    | .error e => .error e
    | .ok none => SetRootValues res heaps (i + 1) rest
    | .ok (some b) =>
      match SetRootValues res heaps (i + 1) rest with
      | .error e => .error e
      | .ok l => .ok (b :: l)

/-- Claim-side definition, written from the words of C4: the binding kind is
chosen solely from the resource's declared TransitionTo state
(VERTEX_AND_CONSTANT_BUFFER = 1 binds a CBV, UNORDERED_ACCESS = 8 a UAV,
every other value an SRV), a heap-bound value always binds the heap's base
GPU handle as a descriptor table, and the slot is the positional index when
the value's Index field is 0, else the Index field. -/
def specRootBinding (res : String → Option ResInfoM) (heaps : String → Nat)
    (pos : Nat) (V : RootValueM) : Option RootBindingM :=
  let slot := if V.Index = 0 then pos else V.Index
  match V.ResName with
  | some rn =>
    match res rn with
    | none => none
    | some D =>
      if D.TransitionTo = 1 then some (.cbv slot D.GpuVA)
      else if D.TransitionTo = 8 then some (.uav slot D.GpuVA)
      else some (.srv slot D.GpuVA)
  | none =>
    match V.HeapName with
    | some hn => some (.table slot (heaps hn))
    | none => none

theorem bindOneRootValue_spec (res : String → Option ResInfoM)
    (heaps : String → Nat) (i : Nat) (V : RootValueM)
    (ob : Option RootBindingM)
    (h : bindOneRootValue res heaps i V = .ok ob) :
    specRootBinding res heaps i V = ob := by
  unfold bindOneRootValue at h
  unfold specRootBinding
  unfold D3D12_RESOURCE_STATE_VERTEX_AND_CONSTANT_BUFFER
    D3D12_RESOURCE_STATE_UNORDERED_ACCESS at h
  repeat' split at h
  all_goals simp_all

set_option maxRecDepth 4000 in
/-- C4: whenever SetRootValues succeeds starting from loop counter `i`, the
bindings it issued are exactly the per-value bindings of the claim, in
order: the kind is selected solely by the resource's TransitionTo state
(VERTEX_AND_CONSTANT_BUFFER a CBV, UNORDERED_ACCESS a UAV, anything else an
SRV), a heap-bound value binds the heap's base GPU handle as a descriptor
table, and the slot is the value's position when its Index is 0, else its
Index. -/
theorem C4_root_binding_selection (res : String → Option ResInfoM)
    (heaps : String → Nat) (i : Nat) (rvs : List RootValueM)
    (out : List RootBindingM)
    (h : SetRootValues res heaps i rvs = .ok out) :
    out = (List.enumFrom i rvs).filterMap
      (fun p => specRootBinding res heaps p.1 p.2) := by
  induction rvs generalizing i out with
  | nil =>
    unfold SetRootValues at h
    cases h
    rfl
  | cons V rest ih =>
    unfold SetRootValues at h
    cases hb : bindOneRootValue res heaps i V with
    | error e =>
      rw [hb] at h
      exact absurd h (by simp)
    | ok ob =>
      rw [hb] at h
      have hspec := bindOneRootValue_spec res heaps i V ob hb
      cases ob with
      | none =>
        simp only [List.enumFrom, List.filterMap_cons, hspec]
        exact ih (i + 1) out h
      | some b =>
        cases hr : SetRootValues res heaps (i + 1) rest with
        | error e =>
          rw [hr] at h
          exact absurd h (by simp)
        | ok l =>
          rw [hr] at h
          cases h
          simp only [List.enumFrom, List.filterMap_cons, hspec]
          rw [ih (i + 1) l hr]

/-- Resource environment for the C4 witness: "A" is in
VERTEX_AND_CONSTANT_BUFFER state, "B" in UNORDERED_ACCESS, "C" in an
unrelated state (COPY_DEST-like 1024-class value) that must fall to SRV. -/
def c4Res : String → Option ResInfoM := fun s =>
  if s = "A" then some ⟨1, 100⟩
  else if s = "B" then some ⟨8, 200⟩
  else if s = "C" then some ⟨2048, 300⟩
  else none

/-- Heap environment for the C4 witness: every heap base handle is 55. -/
def c4Heaps : String → Nat := fun _ => 55

/-- Root values for the C4 witness: resource-bound with default and explicit
indices, a heap-bound value, and a trailing resource with a non-CBV/UAV
state. -/
def c4RVs : List RootValueM :=
  [⟨some "A", none, 0⟩, ⟨some "B", none, 7⟩, ⟨none, some "H", 0⟩,
    ⟨some "C", none, 0⟩]

/-- Witness for C4: the concrete run emits CBV at slot 0, UAV at the
explicit slot 7, a descriptor table at slot 2 and an SRV at slot 3, and the
claim-side description reproduces exactly that list. -/
theorem C4_root_binding_selection_witness :
    SetRootValues c4Res c4Heaps 0 c4RVs =
      .ok [.cbv 0 100, .uav 7 200, .table 2 55, .srv 3 300]
    ∧ [RootBindingM.cbv 0 100, .uav 7 200, .table 2 55, .srv 3 300] =
      (List.enumFrom 0 c4RVs).filterMap
        (fun p => specRootBinding c4Res c4Heaps p.1 p.2) :=
  ⟨by decide, C4_root_binding_selection c4Res c4Heaps 0 c4RVs _ (by decide)⟩
